import Mathlib

/-!
# Text-to-speech relay servers

A shallow embedding of the request handlers of the three server variants
(`index.js`, `server.js`, `test.js`).  A handler is a function from the
behaviour of its collaborators (translator, speech provider, clock, file
system) and the client message to the ordered list of effects it performs.

The strings of `index.js` and `server.js` are modelled by `String`; those of
`test.js`, which are copied into a JSON text, by their UTF-16 code units
(`JsString`), lone surrogates included.  A payload that can be destructured is
an object whose fields are optional strings, `none` standing for an absent
(`undefined`) field; the listeners `onGenerateTTS`, `onTextChunk`, `onPostTts`
and `onTopTts` also take a payload that is `undefined` or `null`.  `socket.emit`
and the `res` methods return without a throw; every other call to a collaborator
may throw.  Console output is recorded in the trace next to the calls and the
responses.
-/

namespace TTS

/-! ## Data model -/

/-- One octet of a `Uint8Array`. -/
abbrev Byte := Fin 256

/-- Binary data: the content of a node `Buffer`. -/
abbrev Buffer := List Byte

/-- The value carried by a thrown exception or a rejected promise. -/
abbrev Err := String

/-- The 64 characters of the standard base64 alphabet. -/
def base64Alphabet : List Char :=
  "ABCDEFGHIJKLMNOPQRSTUVWXYZabcdefghijklmnopqrstuvwxyz0123456789+/".toList

/-- The character of a six-bit group. -/
def base64Char (n : Nat) : Char := base64Alphabet.getD n '='

/-- Base64 text of a list of octets, three octets to four characters, padded with `=`. -/
def base64Chars : List Nat → List Char
  | [] => []
  | [a] => [base64Char (a / 4), base64Char (a % 4 * 16), '=', '=']
  | [a, b] =>
    [base64Char (a / 4), base64Char (a % 4 * 16 + b / 16), base64Char (b % 16 * 4), '=']
  | a :: b :: c :: rest =>
    base64Char (a / 4) :: base64Char (a % 4 * 16 + b / 16) ::
      base64Char (b % 16 * 4 + c / 64) :: base64Char (c % 64) :: base64Chars rest

/-- The result of `buffer.toString("base64")`. -/
def toBase64 (b : Buffer) : String := String.mk (base64Chars (b.map Fin.val))

/-- The result of `Buffer.concat(chunks)`: the chunks joined in list order. -/
def bufferConcat (chunks : List Buffer) : Buffer := chunks.flatten

/-- The number of UTF-16 code units of a character. -/
def utf16Units (c : Char) : Nat := if c.toNat < 65536 then 1 else 2

/-- The value of `s.length` in JavaScript: the number of UTF-16 code units. -/
def jsLength (s : String) : Nat := (s.toList.map utf16Units).sum

/-- The digits of `n` in base ten, most significant first; `fuel` bounds the number of digits. -/
def decimalDigits : Nat → Nat → List Char
  | 0, _ => []
  | fuel + 1, n =>
    if n < 10 then [Nat.digitChar n]
    else decimalDigits fuel (n / 10) ++ [Nat.digitChar (n % 10)]

/-- The text a template literal gives for a non-negative integer such as `Date.now()`. -/
def numberToString (n : Nat) : String := String.mk (decimalDigits (n + 1) n)

/-- The result of `path.join(dir, name)` for a normalised directory and a plain file name. -/
def pathJoin (dir name : String) : String := dir ++ "/" ++ name

/-- A JavaScript string as the list of its UTF-16 code units (numbers below 65536); a lone
surrogate is a code unit like any other. -/
abbrev JsString := List Nat

/-- The UTF-16 code units of a character: one unit, or a surrogate pair above U+FFFF. -/
def charUnits (c : Char) : JsString :=
  if c.toNat < 65536 then [c.toNat]
  else [55296 + (c.toNat - 65536) / 1024, 56320 + (c.toNat - 65536) % 1024]

/-- The JavaScript string of a string literal of the source. -/
def js (s : String) : JsString := s.toList.flatMap charUnits

/-- The `TypeError` a destructuring assignment throws when its right-hand side is `undefined`
or `null`. -/
def destructuringError : Err := "TypeError: Cannot destructure property of undefined or null"

/-- A client message or request body that can be destructured: an object whose fields may be
absent (a primitive value destructures like an object without any of the fields). -/
structure Msg where
  text : Option String
  voiceId : Option String
  modelId : Option String
  language : Option String
  deriving DecidableEq, Repr

/-- The events a handler sends over the socket. -/
inductive Event
  | audioChunk (chunk : String) (seq : Nat)
  | ttsResult (message translatedText path fileBase64 : String)
  | chunkComplete (message : String) (seq : Nat)
  | voicesList (voices : String)
  | error (text : String)
  deriving DecidableEq, Repr

/-- The body of an HTTP response. -/
inductive Payload
  | error (text : String)
  | voices (catalog : String)
  | saved (message translatedText path : String)
  | health
  | welcome
  | audioFile (contentType contentDisposition : String) (content : Buffer)
  deriving DecidableEq, Repr

/-- One argument of a console call. -/
inductive LogItem
  | str (s : String)
  | thrown (e : Err)
  deriving DecidableEq, Repr

/-- The observable actions of a handler, recorded in the order they happen. -/
inductive Effect
  | translateCall (text target : String)
  | ttsCall (voiceId text modelId : String)
  | voicesCall
  | fetchCall (url httpMethod : String) (headers : List (String × String))
      (body : Option JsString)
  | downloadCall (url : String)
  | emit (ev : Event)
  | respond (status : Nat) (body : Payload)
  | existsSync (path : String)
  | mkdirSync (path : String)
  | writeFile (path : String) (data : Buffer)
  | readFile (path : String)
  | log (items : List LogItem)
  deriving DecidableEq, Repr

/-- A recorded trace of effects. -/
abbrev Trace := List Effect

/-- The async iterable returned by the provider: the chunks it yields, then either the end of the
sequence (`none`) or a throw (`some e`). -/
structure Upstream where
  chunks : List Buffer
  failure : Option Err
  deriving DecidableEq, Repr

/-- The behaviour of the collaborators of the ElevenLabs variants during one run. -/
structure World where
  /-- The outcome of `translate(text, { to })`: the field `text` of its result, or a throw. -/
  translate : String → String → Except Err String
  /-- The outcome of `client.textToSpeech.stream(voiceId, { text, modelId })`. -/
  ttsStream : String → String → String → Except Err Upstream
  /-- The outcome of `client.voices.getAll()`. -/
  voices : Except Err String
  /-- The reading of `Date.now()`. -/
  now : Nat
  /-- The outcome of `fs.writeFileSync(path, data)`: `none` when it returns, `some e` on a throw. -/
  writeFileSync : String → Buffer → Option Err
  /-- The constant `AUDIO_DIR`. -/
  audioDir : String

/-- The client side of a socket: `openFor = none` is a client that stays connected, `some k` one
that receives `k` more events and is gone afterwards; `received` is what reached it. -/
structure Socket where
  openFor : Option Nat
  received : List Event
  deriving DecidableEq, Repr

/-- The delivery of `socket.emit`: the event reaches a connected client and is dropped otherwise;
the call returns in both cases. -/
def Socket.deliver (s : Socket) (ev : Event) : Socket :=
  match s.openFor with
  | none => { s with received := s.received ++ [ev] }
  | some 0 => s
  | some (k + 1) => { openFor := some k, received := s.received ++ [ev] }

/-- A run in progress: the socket and the effects so far. -/
structure Run where
  socket : Socket
  trace : Trace
  deriving DecidableEq, Repr

/-- A run that has done nothing yet. -/
def Run.start (s : Socket) : Run := { socket := s, trace := [] }

/-- Record an effect that does not involve the socket. -/
def Run.effect (r : Run) (e : Effect) : Run := { r with trace := r.trace ++ [e] }

/-- The call `socket.emit(...)`. -/
def Run.emit (r : Run) (ev : Event) : Run :=
  { socket := r.socket.deliver ev, trace := r.trace ++ [Effect.emit ev] }

/-- The catch block of the socket handlers: `console.error(err)` then the generic error event. -/
def Run.fail (r : Run) (label : List LogItem) (e : Err) : Run :=
  (r.effect (Effect.log (label ++ [LogItem.thrown e]))).emit (Event.error "TTS generation failed")

/-! ## `index.js` -/

/-- The state of the chunk loop of `generateTTS`: the array `chunks`, `counter`, and the run. -/
structure Relay where
  chunks : List Buffer
  counter : Nat
  run : Run
  deriving DecidableEq, Repr

/-- One iteration of `for await (const chunk of stream)` in `generateTTS`. -/
def relayStep (st : Relay) (chunk : Buffer) : Relay :=
  { chunks := st.chunks ++ [chunk]
    counter := st.counter + 1
    run := st.run.emit (Event.audioChunk (toBase64 chunk) st.counter) }

/-- The chunk loop of `generateTTS` over the chunks the iterable yields. -/
def relay (st : Relay) (upstream : List Buffer) : Relay := upstream.foldl relayStep st

/-- The file path chosen by `index.js`. -/
def mp3Path (w : World) : String :=
  pathJoin w.audioDir ("audio_" ++ numberToString w.now ++ ".mp3")

/-- The part of `generateTTS` after translation: the provider call, the loop, the store. -/
def generateTTSSpeak (w : World) (r : Run) (voiceId text modelId : String) : Run :=
  let r := r.effect (Effect.ttsCall voiceId text modelId)
  match w.ttsStream voiceId text modelId with
  | Except.error e => r.fail [] e
  | Except.ok stream =>
    let st := relay { chunks := [], counter := 0, run := r } stream.chunks
    match stream.failure with
    | some e => st.run.fail [] e
    | none =>
      let audioBuffer := bufferConcat st.chunks
      let filePath := mp3Path w
      let r := st.run.effect (Effect.writeFile filePath audioBuffer)
      match w.writeFileSync filePath audioBuffer with
      | some e => r.fail [] e
      | none =>
        r.emit (Event.ttsResult "Audio saved locally" text filePath (toBase64 audioBuffer))

/-- The handler of the socket event `generateTTS` in `index.js`, for a payload that can be
destructured. -/
def generateTTS (w : World) (sock : Socket) (msg : Msg) : Run :=
  let modelId := msg.modelId.getD "eleven_flash_v2_5"
  let language := msg.language.getD "en"
  match msg.text, msg.voiceId with
  | some text, some voiceId =>
    if text = "" ∨ voiceId = "" then
      (Run.start sock).emit (Event.error "text and voiceId required")
    else
      let r := (Run.start sock).effect
        (Effect.log [LogItem.str text, LogItem.str voiceId, LogItem.str language])
      if language = "hi" then
        let r := r.effect (Effect.translateCall text "hi")
        match w.translate text "hi" with
        | Except.error e => r.fail [] e
        | Except.ok translated =>
          let r := r.effect (Effect.log [LogItem.str "Translated to Hindi:", LogItem.str translated])
          generateTTSSpeak w r voiceId translated modelId
      else generateTTSSpeak w r voiceId text modelId
  | _, _ => (Run.start sock).emit (Event.error "text and voiceId required")

/-- The listener of the socket event `generateTTS` in `index.js` for any payload: `none` is a
payload that is `undefined` or `null`, for which the destructuring of lines 116 to 122 throws
inside the `try`. -/
def onGenerateTTS (w : World) (sock : Socket) : Option Msg → Run
  | some msg => generateTTS w sock msg
  | none => (Run.start sock).fail [] destructuringError

/-- The catch block of the REST handlers of `index.js` and `server.js`. -/
def restFail (t : Trace) (e : Err) (text : String) : Trace :=
  t ++ [Effect.log [LogItem.thrown e], Effect.respond 500 (Payload.error text)]

/-- The handler of `GET /` in `index.js`. -/
def getRoot : Trace := [Effect.respond 200 Payload.welcome]

/-- The handler of `GET /voices` in `index.js` and in `server.js`. -/
def getVoices (w : World) : Trace :=
  match w.voices with
  | Except.ok voices => [Effect.voicesCall, Effect.respond 200 (Payload.voices voices)]
  | Except.error e => restFail [Effect.voicesCall] e "Failed to fetch voices"

/-- The handler of the socket event `getVoices` in `index.js`. -/
def getVoicesSocket (w : World) (sock : Socket) : Run :=
  let r := (Run.start sock).effect Effect.voicesCall
  match w.voices with
  | Except.ok voices => r.emit (Event.voicesList voices)
  | Except.error e =>
    (r.effect (Effect.log [LogItem.thrown e])).emit (Event.error "Failed to fetch voices")

/-- The part of `POST /tts` in `index.js` after translation: provider call, collection, store. -/
def postTtsSpeak (w : World) (t : Trace) (voiceId finalText modelId : String) : Trace :=
  let t := t ++ [Effect.ttsCall voiceId finalText modelId]
  match w.ttsStream voiceId finalText modelId with
  | Except.error e => restFail t e "TTS generation failed"
  | Except.ok stream =>
    let chunks := stream.chunks.foldl (fun acc chunk => acc ++ [chunk]) []
    match stream.failure with
    | some e => restFail t e "TTS generation failed"
    | none =>
      let audioBuffer := bufferConcat chunks
      let filePath := mp3Path w
      let t := t ++ [Effect.writeFile filePath audioBuffer]
      match w.writeFileSync filePath audioBuffer with
      | some e => restFail t e "TTS generation failed"
      | none => t ++ [Effect.respond 200 (Payload.saved "Audio saved locally" finalText filePath)]

/-- The handler of `POST /tts` in `index.js`, for a body that can be destructured. -/
def postTts (w : World) (body : Msg) : Trace :=
  let modelId := body.modelId.getD "eleven_multilingual_v2"
  let language := body.language.getD "en"
  match body.text, body.voiceId with
  | some text, some voiceId =>
    if text = "" ∨ voiceId = "" then
      [Effect.respond 400 (Payload.error "text and voiceId required")]
    else if language = "hi" then
      match w.translate text "hi" with
      | Except.error e => restFail [Effect.translateCall text "hi"] e "TTS generation failed"
      | Except.ok translated =>
        postTtsSpeak w
          [Effect.translateCall text "hi",
            Effect.log [LogItem.str "Translated to Hindi:", LogItem.str translated]]
          voiceId translated modelId
    else postTtsSpeak w [] voiceId text modelId
  | _, _ => [Effect.respond 400 (Payload.error "text and voiceId required")]

/-- The route `POST /tts` of `index.js` for any request: `none` is a request whose `req.body` is
`undefined`, for which the destructuring of lines 50 to 55 throws inside the `try`. -/
def onPostTts (w : World) : Option Msg → Trace
  | some body => postTts w body
  | none => restFail [] destructuringError "TTS generation failed"

/-! ## `server.js` -/

/-- The handler of `GET /health` in `server.js`. -/
def getHealth : Trace := [Effect.respond 200 Payload.health]

/-- The state of the chunk loop of `textChunk`: `counter` and the run. -/
structure Forward where
  counter : Nat
  run : Run
  deriving DecidableEq, Repr

/-- One iteration of `for await (const chunk of stream)` in `textChunk`. -/
def forwardStep (st : Forward) (chunk : Buffer) : Forward :=
  { counter := st.counter + 1
    run := st.run.emit (Event.audioChunk (toBase64 chunk) st.counter) }

/-- The chunk loop of `textChunk` over the chunks the iterable yields. -/
def forward (st : Forward) (upstream : List Buffer) : Forward := upstream.foldl forwardStep st

/-- The handler of the socket event `textChunk` in `server.js`, for a payload that can be
destructured. -/
def textChunk (w : World) (sock : Socket) (msg : Msg) : Run :=
  let modelId := msg.modelId.getD "eleven_multilingual_v2"
  match msg.text, msg.voiceId with
  | some text, some voiceId =>
    if text = "" ∨ voiceId = "" then
      (Run.start sock).emit (Event.error "text and voiceId required")
    else if jsLength text > 2000 then
      (Run.start sock).emit (Event.error "chunk too long")
    else
      let r := (Run.start sock).effect (Effect.ttsCall voiceId text modelId)
      match w.ttsStream voiceId text modelId with
      | Except.error e => r.fail [LogItem.str "TTS error"] e
      | Except.ok stream =>
        let st := forward { counter := 0, run := r } stream.chunks
        match stream.failure with
        | some e => st.run.fail [LogItem.str "TTS error"] e
        | none => st.run.emit (Event.chunkComplete "done" st.counter)
  | _, _ => (Run.start sock).emit (Event.error "text and voiceId required")

/-- The listener of the socket event `textChunk` in `server.js` for any payload: `none` is a
payload that is `undefined` or `null`, for which the destructuring of line 51 throws inside the
`try`. -/
def onTextChunk (w : World) (sock : Socket) : Option Msg → Run
  | some msg => textChunk w sock msg
  | none => (Run.start sock).fail [LogItem.str "TTS error"] destructuringError

/-! ## `test.js` -/

/-- The request body of `POST /tts` in `test.js` when it can be destructured; the fields are
kept as UTF-16 code units because they are copied into a JSON text. -/
structure SpeakerMsg where
  text : Option JsString
  speaker : Option JsString
  deriving DecidableEq, Repr

/-- The parsed reply of the TopMediai provider: `ossUrl` is `data?.data?.oss_url`, `none` when
the chain is undefined; `shown` is the reply as the console prints it. -/
structure ProviderReply where
  ossUrl : Option String
  shown : String
  deriving DecidableEq, Repr

/-- The behaviour of the collaborators of `test.js` during one run. -/
structure TopWorld where
  /-- The constant `API_KEY`. -/
  apiKey : String
  /-- The outcome of `fetch` of the voice list followed by `response.json()`. -/
  fetchVoices : Except Err String
  /-- The outcome of `fetch` of the synthesis followed by `response.json()`, by request body. -/
  fetchTts : JsString → Except Err ProviderReply
  /-- The reading of `Date.now()`. -/
  now : Nat
  /-- The result of `fs.existsSync(path)`. -/
  existsSync : String → Bool
  /-- The outcome of `fs.mkdirSync(path, ...)`. -/
  mkdirSync : String → Option Err
  /-- The outcome of `axios.get(url, ...)`: the field `data` of the response. -/
  download : String → Except Err Buffer
  /-- The outcome of `fs.writeFileSync(path, data)`. -/
  writeFileSync : String → Buffer → Option Err
  /-- The outcome of `fs.readFileSync(path)`. -/
  readFileSync : String → Except Err Buffer

/-- The text a template literal gives for a field: an absent field reads `undefined`. -/
def interpolate : Option JsString → JsString
  | some s => s
  | none => js "undefined"

/-- The request body `test.js` sends upstream, built by the template literal of line 51. -/
def ttsBody (text speaker : Option JsString) : JsString :=
  js "\x7b\"text\": \"" ++ interpolate text ++ js "\",\"speaker\":\"" ++
    interpolate speaker ++ js "\",\"emotion\":\"Neutral\"\x7d"

/-- The file name chosen by `test.js`. -/
def wavName (now : Nat) : String := "audio_" ++ numberToString now ++ ".wav"

/-- The file path chosen by `test.js`. -/
def wavPath (now : Nat) : String := pathJoin (pathJoin "public" "tts_audios") (wavName now)

/-- The handler of `GET /voices` in `test.js`. -/
def topVoices (w : TopWorld) : Trace :=
  let t := [Effect.fetchCall "https://api.topmediai.com/v1/voices_list" "GET"
    [("x-api-key", w.apiKey)] none]
  match w.fetchVoices with
  | Except.ok data => t ++ [Effect.respond 200 (Payload.voices data)]
  | Except.error e => t ++ [Effect.log [LogItem.thrown e]]

/-- The catch block of `POST /tts` in `test.js`. -/
def topFail (t : Trace) (e : Err) : Trace :=
  t ++ [Effect.log [LogItem.thrown e], Effect.respond 500 (Payload.error "Server error")]

/-- The end of `POST /tts` in `test.js`: download, write, read back, send (lines 72 to 86). -/
def topDownload (w : TopWorld) (t : Trace) (audioUrl : String) : Trace :=
  let fileName := wavName w.now
  let filePath := wavPath w.now
  let t := t ++ [Effect.downloadCall audioUrl]
  match w.download audioUrl with
  | Except.error e => topFail t e
  | Except.ok data =>
    let t := t ++ [Effect.writeFile filePath data]
    match w.writeFileSync filePath data with
    | some e => topFail t e
    | none =>
      let t := t ++ [Effect.readFile filePath]
      match w.readFileSync filePath with
      | Except.error e => topFail t e
      | Except.ok fileBuffer =>
        t ++ [Effect.respond 200
          (Payload.audioFile "audio/wav" ("inline; filename=\"" ++ fileName ++ "\"") fileBuffer)]

/-- The second step of `POST /tts` in `test.js`: the folder is made when absent, then the audio
is downloaded and stored (lines 64 to 86). -/
def topStore (w : TopWorld) (t : Trace) (audioUrl : String) : Trace :=
  let folderPath := pathJoin "public" "tts_audios"
  let t := t ++ [Effect.existsSync folderPath]
  if w.existsSync folderPath then topDownload w t audioUrl
  else
    let t := t ++ [Effect.mkdirSync folderPath]
    match w.mkdirSync folderPath with
    | some e => topFail t e
    | none => topDownload w t audioUrl

/-- The handler of `POST /tts` in `test.js`, for a body that can be destructured. -/
def topTts (w : TopWorld) (body : SpeakerMsg) : Trace :=
  let sent := ttsBody body.text body.speaker
  let t := [Effect.fetchCall "https://api.topmediai.com/v1/text2speech" "POST"
    [("x-api-key", w.apiKey), ("Content-Type", "application/json")] (some sent)]
  match w.fetchTts sent with
  | Except.error e => topFail t e
  | Except.ok data =>
    let t := t ++ [Effect.log [LogItem.str data.shown]]
    match data.ossUrl with
    | none => t ++ [Effect.respond 400 (Payload.error "TTS generation failed")]
    | some audioUrl =>
      if audioUrl = "" then t ++ [Effect.respond 400 (Payload.error "TTS generation failed")]
      else topStore w t audioUrl

/-- The route `POST /tts` of `test.js` for any request: `none` is a request whose `req.body` is
`undefined`, for which the destructuring of line 42 throws inside the `try`. -/
def onTopTts (w : TopWorld) : Option SpeakerMsg → Trace
  | some body => topTts w body
  | none => topFail [] destructuringError

/-! ## Observations on traces -/

/-- The events a trace hands to `socket.emit`, in order. -/
def emitted (t : Trace) : List Event :=
  t.filterMap fun e => match e with
    | Effect.emit ev => some ev
    | _ => none

/-- The `audioChunk` events among a list of events. -/
def audioChunks (evs : List Event) : List Event :=
  evs.filter fun ev => match ev with
    | Event.audioChunk _ _ => true
    | _ => false

/-- The file writes of a trace, in order. -/
def fileWrites (t : Trace) : List (String × Buffer) :=
  t.filterMap fun e => match e with
    | Effect.writeFile path data => some (path, data)
    | _ => none

/-- The calls that leave the process for the network. -/
def Effect.isNetworkCall : Effect → Bool
  | Effect.translateCall _ _ => true
  | Effect.ttsCall _ _ _ => true
  | Effect.voicesCall => true
  | Effect.fetchCall _ _ _ _ => true
  | Effect.downloadCall _ => true
  | _ => false

/-- The network calls of a trace, in order. -/
def networkCalls (t : Trace) : Trace := t.filter Effect.isNetworkCall

/-- The HTTP responses of a trace, in order. -/
def responses (t : Trace) : List (Nat × Payload) :=
  t.filterMap fun e => match e with
    | Effect.respond status body => some (status, body)
    | _ => none

/-- The expected relay output for an upstream sequence: chunk `i` in base64 with `seq = i`,
numbering from `start`. -/
def numbered (start : Nat) : List Buffer → List Event
  | [] => []
  | c :: cs => Event.audioChunk (toBase64 c) start :: numbered (start + 1) cs

/-- The text `index.js` hands to the provider for a request text and language: the translator's
output when the language is `hi`, the request text otherwise. -/
def Spoken (w : World) (text language spoken : String) : Prop :=
  if language = "hi" then w.translate text "hi" = Except.ok spoken else spoken = text

/-- The tail the catch block of a socket handler appends to the trace. -/
def failTail (label : List LogItem) (e : Err) : Trace :=
  [Effect.log (label ++ [LogItem.thrown e]), Effect.emit (Event.error "TTS generation failed")]

/-- The events `evs` are one event per chunk of `cs`, the `i`-th carrying `seq = i` and the
base64 text of chunk `i`. -/
def InArrivalOrder (evs : List Event) (cs : List Buffer) : Prop :=
  evs.length = cs.length ∧
    ∀ (i : Nat) (h : i < cs.length), evs[i]? = some (Event.audioChunk (toBase64 cs[i]) i)

/-- A client that stays connected and has received nothing yet. -/
def freshSocket : Socket := { openFor := none, received := [] }

/-- A sample upstream sequence of two chunks that ends normally. -/
def sampleStream : Upstream := { chunks := [[1, 2, 3], [4, 5]], failure := none }

/-- A sample behaviour of the collaborators in which every call succeeds. -/
def sampleWorld : World :=
  { translate := fun text _ => Except.ok ("hi:" ++ text)
    ttsStream := fun _ _ _ => Except.ok sampleStream
    voices := Except.ok "[]"
    now := 1700000000000
    writeFileSync := fun _ _ => none
    audioDir := "/srv/audio_files" }

/-- A sample valid message with the default model and language. -/
def sampleMsg : Msg := { text := some "hello", voiceId := some "v1", modelId := none, language := none }

/-- The delivery of a list of events in order. -/
def Socket.deliverAll (s : Socket) (evs : List Event) : Socket := evs.foldl Socket.deliver s

/-- The events that reach a client which is gone after `openFor` events: all of them when it
stays connected, the first `k` otherwise. -/
def reaching (openFor : Option Nat) (evs : List Event) : List Event :=
  match openFor with
  | none => evs
  | some k => evs.take k

/-- Completion events: `ttsResult` and `chunkComplete`. -/
def Event.isCompletion : Event → Bool
  | Event.ttsResult _ _ _ _ => true
  | Event.chunkComplete _ _ => true
  | _ => false

/-- The `error` events. -/
def Event.isError : Event → Bool
  | Event.error _ => true
  | _ => false

/-- The conditions under which `index.js` reaches the store: the request passes validation, the
translator (when used) returns `spoken`, the provider returns `stream` and the stream ends
without a throw. -/
def StoreReady (w : World) (msg : Msg) (defaultModel : String) (spoken : String)
    (stream : Upstream) : Prop :=
  ∃ text voiceId : String, msg.text = some text ∧ msg.voiceId = some voiceId ∧
    text ≠ "" ∧ voiceId ≠ "" ∧ Spoken w text (msg.language.getD "en") spoken ∧
    w.ttsStream voiceId spoken (msg.modelId.getD defaultModel) = Except.ok stream ∧
    stream.failure = none

/-- The socket of a run is the initial socket after delivery of the events emitted so far. -/
def Run.Tracks (r : Run) (s : Socket) : Prop := r.socket = s.deliverAll (emitted r.trace)

/-- A client that is gone after two more events. -/
def leavingSocket : Socket := { openFor := some 2, received := [] }

/-- A sample upstream sequence of five chunks that ends normally. -/
def fiveChunks : Upstream := { chunks := [[1], [2, 3], [4], [5, 6, 7], [8]], failure := none }

/-- The sample collaborators with the provider yielding the five sample chunks. -/
def fiveWorld : World := { sampleWorld with ttsStream := fun _ _ _ => Except.ok fiveChunks }

/-- A sample upstream sequence that throws after one chunk. -/
def brokenStream : Upstream := { chunks := [[1, 2, 3]], failure := some "socket hang up" }

/-- The sample collaborators with the provider stream breaking after one chunk. -/
def brokenWorld : World := { sampleWorld with ttsStream := fun _ _ _ => Except.ok brokenStream }

/-- The sample collaborators with a translator that throws. -/
def noTranslatorWorld : World :=
  { sampleWorld with translate := fun _ _ => Except.error "Too Many Requests" }

/-- A sample valid message that asks for Hindi. -/
def hindiMsg : Msg :=
  { text := some "hello", voiceId := some "v1", modelId := none, language := some "hi" }

/-- A text of 2001 code units. -/
def longText : String := String.mk (List.replicate 2001 'a')

/-- A text of exactly 2000 code units. -/
def capText : String := String.mk (List.replicate 2000 'a')

/-- A valid message whose text has 2001 code units. -/
def longMsg : Msg := { text := some longText, voiceId := some "v1", modelId := none, language := none }

/-- A valid message whose text has exactly 2000 code units. -/
def capMsg : Msg := { text := some capText, voiceId := some "v1", modelId := none, language := none }

/-- A message without `voiceId`. -/
def noVoiceMsg : Msg := { text := some "hello", voiceId := none, modelId := none, language := none }

/-- A request body for `test.js` without `speaker`. -/
def noSpeakerMsg : SpeakerMsg := { text := some (js "hello"), speaker := none }

/-- A sample behaviour of the collaborators of `test.js` in which every call succeeds. -/
def sampleTopWorld : TopWorld :=
  { apiKey := "key"
    fetchVoices := Except.ok "[]"
    fetchTts := fun _ => Except.ok { ossUrl := some "https://oss.example/a.wav", shown := "ok" }
    now := 1700000000000
    existsSync := fun _ => true
    mkdirSync := fun _ => none
    download := fun _ => Except.ok [82, 73, 70, 70]
    writeFileSync := fun _ _ => none
    readFileSync := fun _ => Except.ok [82, 73, 70, 70] }

/-- The sample collaborators of `test.js` with the voice list request failing. -/
def offlineTopWorld : TopWorld := { sampleTopWorld with fetchVoices := Except.error "ECONNREFUSED" }

/-- The upstream request of `POST /tts` in `test.js` for a body. -/
def topFetch (w : TopWorld) (body : SpeakerMsg) : Effect :=
  Effect.fetchCall "https://api.topmediai.com/v1/text2speech" "POST"
    [("x-api-key", w.apiKey), ("Content-Type", "application/json")]
    (some (ttsBody body.text body.speaker))

/-- The sample collaborators of the ElevenLabs variants with the voice catalogue failing. -/
def offlineWorld : World := { sampleWorld with voices := Except.error "ECONNREFUSED" }

/-- The number a list of decimal digit characters stands for. -/
def decimalValue (cs : List Char) : Nat := cs.foldl (fun acc c => acc * 10 + (c.toNat - 48)) 0

/-- The sample collaborators one millisecond later. -/
def laterWorld : World := { sampleWorld with now := 1700000000001 }

/-- The sample collaborators of `test.js` one millisecond later. -/
def laterTopWorld : TopWorld := { sampleTopWorld with now := 1700000000001 }

/-- A sample body for `test.js`. -/
def speakerMsg : SpeakerMsg := { text := some (js "hello"), speaker := some (js "s1") }

/-! ## JSON text -/

/-- A leading surrogate, U+D800 to U+DBFF. -/
def isHighSurrogate (u : Nat) : Bool := 55296 ≤ u && u ≤ 56319

/-- A trailing surrogate, U+DC00 to U+DFFF. -/
def isLowSurrogate (u : Nat) : Bool := 56320 ≤ u && u ≤ 57343

/-- The escape `\uXXXX` of a code unit, with lower-case hexadecimal digits (UnicodeEscape). -/
def unicodeEscape (u : Nat) : JsString :=
  [92, 117, (Nat.digitChar (u / 4096 % 16)).toNat, (Nat.digitChar (u / 256 % 16)).toNat,
    (Nat.digitChar (u / 16 % 16)).toNat, (Nat.digitChar (u % 16)).toNat]

/-- The text `JSON.stringify` writes for a code point of one code unit (QuoteJSONString): the
quote, the backslash, the code units below U+0020 and a surrogate standing alone are escaped,
all others are copied. -/
def jsonEscape (u : Nat) : JsString :=
  if u = 34 then [92, 34]
  else if u = 92 then [92, 92]
  else if u = 8 then [92, 98]
  else if u = 12 then [92, 102]
  else if u = 10 then [92, 110]
  else if u = 13 then [92, 114]
  else if u = 9 then [92, 116]
  else if u < 32 ∨ isHighSurrogate u = true ∨ isLowSurrogate u = true then unicodeEscape u
  else [u]

/-- The text `JSON.stringify` writes for the code points of a string: a leading surrogate
followed by a trailing one is one code point and is copied; every other code unit is a code
point of its own. -/
def jsonEscapeAll : JsString → JsString
  | [] => []
  | [u] => jsonEscape u
  | u :: v :: rest =>
    if isHighSurrogate u && isLowSurrogate v then u :: v :: jsonEscapeAll rest
    else jsonEscape u ++ jsonEscapeAll (v :: rest)

/-- The text `JSON.stringify` gives for a string value. -/
def jsonQuote (s : JsString) : JsString := 34 :: jsonEscapeAll s ++ [34]

/-- The member `"key":value` of a serialised object; a property whose value is `undefined` is
left out. -/
def jsonMember (key : String) : Option JsString → List JsString
  | some v => [jsonQuote (js key) ++ 58 :: jsonQuote v]
  | none => []

/-- The text of `JSON.stringify(\x7b text, speaker, emotion: "Neutral" \x7d)`, the structured
serialisation of the request object of `test.js`. -/
def jsonStringifyBody (text speaker : Option JsString) : JsString :=
  123 :: List.intercalate [44] (jsonMember "text" text ++ jsonMember "speaker" speaker ++
    jsonMember "emotion" (some (js "Neutral"))) ++ [125]

/-- The white space JSON allows between tokens, as code units: space, tab, line feed, carriage
return. -/
def isWsUnit (u : Nat) : Bool := u = 32 || u = 9 || u = 10 || u = 13

/-- Where a scan of a JSON text stands: between tokens, inside a string literal, or right
after a backslash inside a string literal. -/
inductive Scan
  | outside
  | inside
  | escaped
  deriving DecidableEq, Repr

/-- A JSON text without its insignificant white space, that is the white space outside string
literals. -/
def dropInsignificant : Scan → JsString → JsString
  | _, [] => []
  | Scan.outside, u :: us =>
    if isWsUnit u then dropInsignificant Scan.outside us
    else if u = 34 then u :: dropInsignificant Scan.inside us
    else u :: dropInsignificant Scan.outside us
  | Scan.inside, u :: us =>
    if u = 92 then u :: dropInsignificant Scan.escaped us
    else if u = 34 then u :: dropInsignificant Scan.outside us
    else u :: dropInsignificant Scan.inside us
  | Scan.escaped, u :: us => u :: dropInsignificant Scan.inside us

/-- Two JSON texts are equal up to white space when they agree once the white space between
tokens is dropped. -/
def EqualUpToWs (a b : JsString) : Prop :=
  dropInsignificant Scan.outside a = dropInsignificant Scan.outside b

/-- A string with no double quote, no backslash and no control character (a code unit below
U+0020). -/
def Clean (s : JsString) : Prop := ∀ u ∈ s, u ≠ 34 ∧ u ≠ 92 ∧ 32 ≤ u

/-- A string without a lone surrogate: every leading surrogate is followed by a trailing one
and every trailing surrogate follows a leading one. -/
def wellFormed : JsString → Bool
  | [] => true
  | [u] => !isHighSurrogate u && !isLowSurrogate u
  | u :: v :: rest =>
    if isHighSurrogate u then isLowSurrogate v && wellFormed rest
    else !isLowSurrogate u && wellFormed (v :: rest)

/-- The text that travels to the provider for a request body: `fetch` sends a string body as
its code points, a surrogate pair as one code point and a lone surrogate as U+FFFD. -/
def wireText : JsString → List Char
  | [] => []
  | [u] =>
    if isHighSurrogate u || isLowSurrogate u then [Char.ofNat 65533] else [Char.ofNat u]
  | u :: v :: rest =>
    if isHighSurrogate u && isLowSurrogate v then
      Char.ofNat (65536 + (u - 55296) * 1024 + (v - 56320)) :: wireText rest
    else if isHighSurrogate u || isLowSurrogate u then Char.ofNat 65533 :: wireText (v :: rest)
    else Char.ofNat u :: wireText (v :: rest)

/-- The white space JSON allows between tokens. -/
def isJsonWs (c : Char) : Bool := c = ' ' || c = '\t' || c = '\n' || c = '\r'

/-- JSON values; a number is kept as its literal. -/
inductive Json
  | null
  | bool (b : Bool)
  | num (literal : List Char)
  | str (s : List Char)
  | arr (items : List Json)
  | obj (members : List (List Char × Json))

/-- The input after leading JSON white space. -/
def skipWs : List Char → List Char
  | [] => []
  | c :: cs => if isJsonWs c then skipWs cs else c :: cs

/-- The value of a hexadecimal digit. -/
def hexValue (c : Char) : Option Nat :=
  if 48 ≤ c.toNat ∧ c.toNat ≤ 57 then some (c.toNat - 48)
  else if 97 ≤ c.toNat ∧ c.toNat ≤ 102 then some (c.toNat - 87)
  else if 65 ≤ c.toNat ∧ c.toNat ≤ 70 then some (c.toNat - 55)
  else none

/-- The character of a `\uXXXX` escape. -/
def hexChar (a b c d : Char) : Option Char :=
  match hexValue a, hexValue b, hexValue c, hexValue d with
  | some x, some y, some z, some u => some (Char.ofNat (((x * 16 + y) * 16 + z) * 16 + u))
  | _, _, _, _ => none

/-- The rest of a JSON string literal after its opening quote: the decoded characters and the
input after the closing quote. -/
def parseStringBody : List Char → Option (List Char × List Char)
  | [] => none
  | c :: cs =>
    if c = '"' then some ([], cs)
    else if c = '\\' then
      match cs with
      | 'u' :: x :: y :: z :: u :: rest =>
        match hexChar x y z u, parseStringBody rest with
        | some h, some (s, r) => some (h :: s, r)
        | _, _ => none
      | e :: rest =>
        let decoded : Option Char :=
          if e = '"' then some '"' else if e = '\\' then some '\\'
          else if e = '/' then some '/' else if e = 'b' then some (Char.ofNat 8)
          else if e = 'f' then some (Char.ofNat 12) else if e = 'n' then some '\n'
          else if e = 'r' then some '\r' else if e = 't' then some '\t' else none
        match decoded, parseStringBody rest with
        | some h, some (s, r) => some (h :: s, r)
        | _, _ => none
      | [] => none
    else if c.toNat < 32 then none
    else
      match parseStringBody cs with
      | some (s, r) => some (c :: s, r)
      | none => none

/-- The leading decimal digits of the input and the rest. -/
def takeDigits : List Char → List Char × List Char
  | [] => ([], [])
  | c :: cs =>
    if c.isDigit then ((takeDigits cs).1.cons c, (takeDigits cs).2) else ([], c :: cs)

/-- A JSON number literal at the head of the input: sign, integer part without a leading zero,
optional fraction, optional exponent. -/
def parseNumber (cs : List Char) : Option (List Char × List Char) :=
  let (sign, cs) := match cs with
    | '-' :: rest => (['-'], rest)
    | _ => ([], cs)
  let (int, cs) := takeDigits cs
  if int = [] ∨ (int.head? = some '0' ∧ int.length ≠ 1) then none
  else
    let frac : Option (List Char × List Char) := match cs with
      | '.' :: rest =>
        let (ds, r) := takeDigits rest
        if ds = [] then none else some ('.' :: ds, r)
      | _ => some ([], cs)
    match frac with
    | none => none
    | some (fr, cs) =>
      let ex : Option (List Char × List Char) := match cs with
        | e :: rest =>
          if e = 'e' ∨ e = 'E' then
            let (sg, rest) := match rest with
              | '+' :: r => (['+'], r)
              | '-' :: r => (['-'], r)
              | _ => ([], rest)
            let (ds, r) := takeDigits rest
            if ds = [] then none else some (e :: sg ++ ds, r)
          else some ([], cs)
        | [] => some ([], cs)
      match ex with
      | none => none
      | some (e, cs) => some (sign ++ int ++ fr ++ e, cs)

/-- The elements of an array after the first: `, value` repeated up to the closing bracket. -/
def parseElements (value : List Char → Option (Json × List Char)) :
    Nat → List Char → Option (List Json × List Char)
  | 0, _ => none
  | fuel + 1, cs =>
    match skipWs cs with
    | ']' :: rest => some ([], rest)
    | ',' :: rest =>
      match value rest with
      | some (v, r) =>
        match parseElements value fuel r with
        | some (vs, r) => some (v :: vs, r)
        | none => none
      | none => none
    | _ => none

/-- One member `"key" : value` of an object. -/
def parseMember (value : List Char → Option (Json × List Char)) (cs : List Char) :
    Option ((List Char × Json) × List Char) :=
  match skipWs cs with
  | '"' :: rest =>
    match parseStringBody rest with
    | some (key, r) =>
      match skipWs r with
      | ':' :: r =>
        match value r with
        | some (v, r) => some ((key, v), r)
        | none => none
      | _ => none
    | none => none
  | _ => none

/-- The members of an object after the first: `, member` repeated up to the closing brace. -/
def parseMembers (value : List Char → Option (Json × List Char)) :
    Nat → List Char → Option (List (List Char × Json) × List Char)
  | 0, _ => none
  | fuel + 1, cs =>
    match skipWs cs with
    | '}' :: rest => some ([], rest)
    | ',' :: rest =>
      match parseMember value rest with
      | some (m, r) =>
        match parseMembers value fuel r with
        | some (ms, r) => some (m :: ms, r)
        | none => none
      | none => none
    | _ => none

/-- A JSON value at the head of the input, after white space; `fuel` bounds the nesting. -/
def parseValue : Nat → List Char → Option (Json × List Char)
  | 0, _ => none
  | fuel + 1, cs =>
    match skipWs cs with
    | 'n' :: 'u' :: 'l' :: 'l' :: rest => some (Json.null, rest)
    | 't' :: 'r' :: 'u' :: 'e' :: rest => some (Json.bool true, rest)
    | 'f' :: 'a' :: 'l' :: 's' :: 'e' :: rest => some (Json.bool false, rest)
    | '"' :: rest =>
      match parseStringBody rest with
      | some (s, r) => some (Json.str s, r)
      | none => none
    | '[' :: rest =>
      match skipWs rest with
      | ']' :: r => some (Json.arr [], r)
      | _ =>
        match parseValue fuel rest with
        | some (v, r) =>
          match parseElements (parseValue fuel) (r.length + 1) r with
          | some (vs, r) => some (Json.arr (v :: vs), r)
          | none => none
        | none => none
    | '{' :: rest =>
      match skipWs rest with
      | '}' :: r => some (Json.obj [], r)
      | _ =>
        match parseMember (parseValue fuel) rest with
        | some (m, r) =>
          match parseMembers (parseValue fuel) (r.length + 1) r with
          | some (ms, r) => some (Json.obj (m :: ms), r)
          | none => none
        | none => none
    | other =>
      match parseNumber other with
      | some (n, r) => some (Json.num n, r)
      | none => none

/-- The value of a JSON text, `none` when the text is not valid JSON (RFC 8259): one value,
with white space around it and nothing else. -/
def parseJson (cs : List Char) : Option Json :=
  match parseValue (cs.length + 1) cs with
  | some (v, rest) => if skipWs rest = [] then some v else none
  | none => none

/-- A text with two double quotes. -/
def quoteText : JsString := js "say \"hi\""

/-- A text that closes the string literal and adds a member. -/
def injectingText : JsString := js "a\",\"admin\":\"true"

/-- A text that is one leading surrogate, as the JSON body `"\ud83d"` decodes to. -/
def loneSurrogateText : JsString := [55357]

/-- A request is without text or voice identifier when its payload is absent or one of the two
fields is absent or empty. -/
def Missing : Option Msg → Prop
  | none => True
  | some msg =>
    msg.text = none ∨ msg.text = some "" ∨ msg.voiceId = none ∨ msg.voiceId = some ""

/-- The number of octets a padded base64 text stands for: three for every four characters,
less one for every padding character. -/
def base64ByteLength (s : String) : Nat :=
  s.length / 4 * 3 - (s.toList.filter fun c => c = '=').length

/-- The number of octets in the payload of an `audioChunk` event. -/
def Event.payloadBytes : Event → Nat
  | Event.audioChunk chunk _ => base64ByteLength chunk
  | _ => 0

/-! ## Basic facts about runs and traces -/

@[simp] theorem Run.trace_start (s : Socket) : (Run.start s).trace = [] := rfl

@[simp] theorem Run.trace_effect (r : Run) (e : Effect) : (r.effect e).trace = r.trace ++ [e] := rfl

@[simp] theorem Run.trace_emit (r : Run) (ev : Event) :
    (r.emit ev).trace = r.trace ++ [Effect.emit ev] := rfl

@[simp] theorem Run.trace_fail (r : Run) (label : List LogItem) (e : Err) :
    (r.fail label e).trace = r.trace ++
      [Effect.log (label ++ [LogItem.thrown e]), Effect.emit (Event.error "TTS generation failed")] := by
  simp [Run.fail]

@[simp] theorem emitted_nil : emitted [] = [] := rfl

@[simp] theorem emitted_append (a b : Trace) : emitted (a ++ b) = emitted a ++ emitted b := by
  simp [emitted]

@[simp] theorem emitted_cons_emit (ev : Event) (t : Trace) :
    emitted (Effect.emit ev :: t) = ev :: emitted t := by
  simp [emitted]

@[simp] theorem emitted_map_emit (evs : List Event) : emitted (evs.map Effect.emit) = evs := by
  induction evs with
  | nil => rfl
  | cons ev evs ih => simp [ih]

@[simp] theorem fileWrites_nil : fileWrites [] = [] := rfl

@[simp] theorem fileWrites_append (a b : Trace) :
    fileWrites (a ++ b) = fileWrites a ++ fileWrites b := by
  simp [fileWrites]

@[simp] theorem fileWrites_map_emit (evs : List Event) : fileWrites (evs.map Effect.emit) = [] := by
  induction evs with
  | nil => rfl
  | cons ev evs ih => simp [fileWrites]

@[simp] theorem responses_nil : responses [] = [] := rfl

@[simp] theorem responses_append (a b : Trace) :
    responses (a ++ b) = responses a ++ responses b := by
  simp [responses]

@[simp] theorem networkCalls_nil : networkCalls [] = [] := rfl

@[simp] theorem networkCalls_append (a b : Trace) :
    networkCalls (a ++ b) = networkCalls a ++ networkCalls b := by
  simp [networkCalls]

@[simp] theorem networkCalls_map_emit (evs : List Event) :
    networkCalls (evs.map Effect.emit) = [] := by
  induction evs with
  | nil => rfl
  | cons ev evs ih => simp [networkCalls, Effect.isNetworkCall]

@[simp] theorem audioChunks_append (a b : List Event) :
    audioChunks (a ++ b) = audioChunks a ++ audioChunks b := by
  simp [audioChunks]

@[simp] theorem audioChunks_numbered (start : Nat) (cs : List Buffer) :
    audioChunks (numbered start cs) = numbered start cs := by
  induction cs generalizing start with
  | nil => rfl
  | cons c cs ih =>
    have h := ih (start + 1)
    simp only [audioChunks] at h
    simp [numbered, audioChunks, h]

theorem numbered_length (start : Nat) (cs : List Buffer) :
    (numbered start cs).length = cs.length := by
  induction cs generalizing start with
  | nil => rfl
  | cons c cs ih => simp [numbered, ih]

theorem numbered_getElem? (start : Nat) (cs : List Buffer) (i : Nat) :
    (numbered start cs)[i]? = cs[i]?.map fun c => Event.audioChunk (toBase64 c) (start + i) := by
  induction cs generalizing start i with
  | nil => simp [numbered]
  | cons c cs ih =>
    cases i with
    | zero => simp [numbered]
    | succ i => simp [numbered, ih, Nat.add_assoc, Nat.add_comm 1 i]

theorem numbered_append (start : Nat) (cs ds : List Buffer) :
    numbered start (cs ++ ds) = numbered start cs ++ numbered (start + cs.length) ds := by
  induction cs generalizing start with
  | nil => simp [numbered]
  | cons c cs ih => simp [numbered, ih, Nat.add_assoc, Nat.add_comm 1]

/-- The chunk loop of `generateTTS`: what it appends to the trace, to `chunks`, to `counter`. -/
theorem relay_spec (st : Relay) (cs : List Buffer) :
    (relay st cs).run.trace = st.run.trace ++ (numbered st.counter cs).map Effect.emit ∧
    (relay st cs).chunks = st.chunks ++ cs ∧
    (relay st cs).counter = st.counter + cs.length := by
  induction cs generalizing st with
  | nil => simp [relay, numbered]
  | cons c cs ih =>
    have h := ih (relayStep st c)
    simp only [relay, List.foldl_cons] at h ⊢
    obtain ⟨h1, h2, h3⟩ := h
    refine ⟨?_, ?_, ?_⟩
    · rw [h1]; simp [relayStep, numbered]
    · rw [h2]; simp [relayStep]
    · rw [h3]; simp [relayStep]; omega

/-- The chunk loop of `textChunk`: what it appends to the trace and to `counter`. -/
theorem forward_spec (st : Forward) (cs : List Buffer) :
    (forward st cs).run.trace = st.run.trace ++ (numbered st.counter cs).map Effect.emit ∧
    (forward st cs).counter = st.counter + cs.length := by
  induction cs generalizing st with
  | nil => simp [forward, numbered]
  | cons c cs ih =>
    have h := ih (forwardStep st c)
    simp only [forward, List.foldl_cons] at h ⊢
    obtain ⟨h1, h2⟩ := h
    refine ⟨?_, ?_⟩
    · rw [h1]; simp [forwardStep, numbered]
    · rw [h2]; simp [forwardStep]; omega

/-- The collection loop of `POST /tts` in `index.js` leaves the chunks in arrival order. -/
theorem collect_spec (acc cs : List Buffer) :
    cs.foldl (fun acc chunk => acc ++ [chunk]) acc = acc ++ cs := by
  induction cs generalizing acc with
  | nil => simp
  | cons c cs ih => simp [ih]

/-- The trace of the provider call, the loop and the store of `generateTTS`, written out. -/
theorem generateTTSSpeak_trace (w : World) (r : Run) (voiceId text modelId : String) :
    (generateTTSSpeak w r voiceId text modelId).trace =
      r.trace ++ Effect.ttsCall voiceId text modelId ::
        match w.ttsStream voiceId text modelId with
        | Except.error e => failTail [] e
        | Except.ok stream =>
          (numbered 0 stream.chunks).map Effect.emit ++
            match stream.failure with
            | some e => failTail [] e
            | none =>
              Effect.writeFile (mp3Path w) (bufferConcat stream.chunks) ::
                match w.writeFileSync (mp3Path w) (bufferConcat stream.chunks) with
                | some e => failTail [] e
                | none => [Effect.emit (Event.ttsResult "Audio saved locally" text (mp3Path w)
                    (toBase64 (bufferConcat stream.chunks)))] := by
  unfold generateTTSSpeak
  cases hs : w.ttsStream voiceId text modelId with
  | error e => simp [failTail]
  | ok stream =>
    obtain ⟨chunks, failure⟩ := stream
    obtain ⟨h1, h2, -⟩ := relay_spec
      { chunks := [], counter := 0, run := r.effect (Effect.ttsCall voiceId text modelId) } chunks
    simp only [List.nil_append] at h2
    cases failure with
    | some e => simp [failTail, h1]
    | none =>
      simp only [h2]
      cases hw : w.writeFileSync (mp3Path w) (bufferConcat chunks) with
      | some e => simp [failTail, h1]
      | none => simp [h1]

/-- The trace of the provider call, the collection and the store of `POST /tts`, written out. -/
theorem postTtsSpeak_trace (w : World) (t : Trace) (voiceId text modelId : String) :
    postTtsSpeak w t voiceId text modelId =
      t ++ Effect.ttsCall voiceId text modelId ::
        match w.ttsStream voiceId text modelId with
        | Except.error e =>
          [Effect.log [LogItem.thrown e], Effect.respond 500 (Payload.error "TTS generation failed")]
        | Except.ok stream =>
          match stream.failure with
          | some e =>
            [Effect.log [LogItem.thrown e],
              Effect.respond 500 (Payload.error "TTS generation failed")]
          | none =>
            Effect.writeFile (mp3Path w) (bufferConcat stream.chunks) ::
              match w.writeFileSync (mp3Path w) (bufferConcat stream.chunks) with
              | some e =>
                [Effect.log [LogItem.thrown e],
                  Effect.respond 500 (Payload.error "TTS generation failed")]
              | none =>
                [Effect.respond 200 (Payload.saved "Audio saved locally" text (mp3Path w))] := by
  unfold postTtsSpeak
  cases hs : w.ttsStream voiceId text modelId with
  | error e => simp [restFail]
  | ok stream =>
    obtain ⟨chunks, failure⟩ := stream
    have hc := collect_spec [] chunks
    simp only [List.nil_append] at hc
    cases failure with
    | some e => simp [restFail]
    | none =>
      simp only [hc]
      cases hw : w.writeFileSync (mp3Path w) (bufferConcat chunks) with
      | some e => simp [restFail]
      | none => simp

/-- The trace of `generateTTS` for a message that passes validation, written out. -/
theorem generateTTS_trace_valid (w : World) (sock : Socket) (msg : Msg) (text voiceId : String)
    (ht : msg.text = some text) (hv : msg.voiceId = some voiceId)
    (hte : text ≠ "") (hve : voiceId ≠ "") :
    (generateTTS w sock msg).trace =
      Effect.log [LogItem.str text, LogItem.str voiceId, LogItem.str (msg.language.getD "en")] ::
        if msg.language.getD "en" = "hi" then
          Effect.translateCall text "hi" ::
            match w.translate text "hi" with
            | Except.error e => failTail [] e
            | Except.ok translated =>
              Effect.log [LogItem.str "Translated to Hindi:", LogItem.str translated] ::
                (generateTTSSpeak w (Run.start sock) voiceId translated
                  (msg.modelId.getD "eleven_flash_v2_5")).trace
        else
          (generateTTSSpeak w (Run.start sock) voiceId text
            (msg.modelId.getD "eleven_flash_v2_5")).trace := by
  unfold generateTTS
  simp only [ht, hv, hte, hve, or_self, if_false]
  by_cases hl : msg.language.getD "en" = "hi"
  · simp only [hl, if_true]
    cases htr : w.translate text "hi" with
    | error e => simp [failTail]
    | ok translated => simp [generateTTSSpeak_trace]
  · simp [hl, generateTTSSpeak_trace]

/-- The trace of `generateTTS` for a message that fails validation. -/
theorem generateTTS_trace_invalid (w : World) (sock : Socket) (msg : Msg)
    (h : msg.text = none ∨ msg.text = some "" ∨ msg.voiceId = none ∨ msg.voiceId = some "") :
    (generateTTS w sock msg).trace = [Effect.emit (Event.error "text and voiceId required")] := by
  unfold generateTTS
  cases ht : msg.text with
  | none => simp
  | some text =>
    cases hv : msg.voiceId with
    | none => simp
    | some voiceId =>
      have : text = "" ∨ voiceId = "" := by
        rcases h with h | h | h | h
        · simp [ht] at h
        · left; simpa [ht] using h
        · simp [hv] at h
        · right; simpa [hv] using h
      simp [this]

/-- The trace of `textChunk` for a message that passes validation and the length cap. -/
theorem textChunk_trace_valid (w : World) (sock : Socket) (msg : Msg) (text voiceId : String)
    (ht : msg.text = some text) (hv : msg.voiceId = some voiceId)
    (hte : text ≠ "") (hve : voiceId ≠ "") (hlen : jsLength text ≤ 2000) :
    (textChunk w sock msg).trace =
      Effect.ttsCall voiceId text (msg.modelId.getD "eleven_multilingual_v2") ::
        match w.ttsStream voiceId text (msg.modelId.getD "eleven_multilingual_v2") with
        | Except.error e => failTail [LogItem.str "TTS error"] e
        | Except.ok stream =>
          (numbered 0 stream.chunks).map Effect.emit ++
            match stream.failure with
            | some e => failTail [LogItem.str "TTS error"] e
            | none => [Effect.emit (Event.chunkComplete "done" stream.chunks.length)] := by
  unfold textChunk
  have hl : ¬ jsLength text > 2000 := by omega
  simp only [ht, hv, hte, hve, or_self, if_false, hl]
  cases hs : w.ttsStream voiceId text (msg.modelId.getD "eleven_multilingual_v2") with
  | error e => simp [failTail]
  | ok stream =>
    obtain ⟨chunks, failure⟩ := stream
    obtain ⟨h1, h2⟩ := forward_spec
      { counter := 0
        run := (Run.start sock).effect
          (Effect.ttsCall voiceId text (msg.modelId.getD "eleven_multilingual_v2")) } chunks
    cases failure with
    | some e => simp [failTail, h1]
    | none => simp [h1, h2]

/-- The trace of `textChunk` for a message that fails validation. -/
theorem textChunk_trace_invalid (w : World) (sock : Socket) (msg : Msg)
    (h : msg.text = none ∨ msg.text = some "" ∨ msg.voiceId = none ∨ msg.voiceId = some "") :
    (textChunk w sock msg).trace = [Effect.emit (Event.error "text and voiceId required")] := by
  unfold textChunk
  cases ht : msg.text with
  | none => simp
  | some text =>
    cases hv : msg.voiceId with
    | none => simp
    | some voiceId =>
      have : text = "" ∨ voiceId = "" := by
        rcases h with h | h | h | h
        · simp [ht] at h
        · left; simpa [ht] using h
        · simp [hv] at h
        · right; simpa [hv] using h
      simp [this]

/-- The trace of `POST /tts` of `index.js` for a body that passes validation, written out. -/
theorem postTts_trace_valid (w : World) (body : Msg) (text voiceId : String)
    (ht : body.text = some text) (hv : body.voiceId = some voiceId)
    (hte : text ≠ "") (hve : voiceId ≠ "") :
    postTts w body =
      if body.language.getD "en" = "hi" then
        Effect.translateCall text "hi" ::
          match w.translate text "hi" with
          | Except.error e =>
            [Effect.log [LogItem.thrown e],
              Effect.respond 500 (Payload.error "TTS generation failed")]
          | Except.ok translated =>
            Effect.log [LogItem.str "Translated to Hindi:", LogItem.str translated] ::
              postTtsSpeak w [] voiceId translated (body.modelId.getD "eleven_multilingual_v2")
      else postTtsSpeak w [] voiceId text (body.modelId.getD "eleven_multilingual_v2") := by
  unfold postTts
  simp only [ht, hv, hte, hve, or_self, if_false]
  by_cases hl : body.language.getD "en" = "hi"
  · simp only [hl, if_true]
    cases htr : w.translate text "hi" with
    | error e => simp [restFail]
    | ok translated => simp [postTtsSpeak_trace]
  · simp [hl]

/-- The trace of `POST /tts` of `index.js` for a body that fails validation. -/
theorem postTts_trace_invalid (w : World) (body : Msg)
    (h : body.text = none ∨ body.text = some "" ∨ body.voiceId = none ∨ body.voiceId = some "") :
    postTts w body = [Effect.respond 400 (Payload.error "text and voiceId required")] := by
  unfold postTts
  cases ht : body.text with
  | none => simp
  | some text =>
    cases hv : body.voiceId with
    | none => simp
    | some voiceId =>
      have : text = "" ∨ voiceId = "" := by
        rcases h with h | h | h | h
        · simp [ht] at h
        · left; simpa [ht] using h
        · simp [hv] at h
        · right; simpa [hv] using h
      simp [this]

theorem numbered_inArrivalOrder (cs : List Buffer) : InArrivalOrder (numbered 0 cs) cs := by
  refine ⟨numbered_length 0 cs, fun i h => ?_⟩
  rw [numbered_getElem?, List.getElem?_eq_getElem h]
  simp

@[simp] theorem emitted_failTail (label : List LogItem) (e : Err) :
    emitted (failTail label e) = [Event.error "TTS generation failed"] := by
  simp [failTail, emitted]

@[simp] theorem emitted_cons_log (items : List LogItem) (t : Trace) :
    emitted (Effect.log items :: t) = emitted t := rfl

@[simp] theorem emitted_cons_translateCall (text target : String) (t : Trace) :
    emitted (Effect.translateCall text target :: t) = emitted t := rfl

@[simp] theorem emitted_cons_ttsCall (voiceId text modelId : String) (t : Trace) :
    emitted (Effect.ttsCall voiceId text modelId :: t) = emitted t := rfl

@[simp] theorem emitted_cons_writeFile (path : String) (data : Buffer) (t : Trace) :
    emitted (Effect.writeFile path data :: t) = emitted t := rfl

@[simp] theorem audioChunks_nil : audioChunks [] = [] := rfl

@[simp] theorem audioChunks_cons_error (text : String) (evs : List Event) :
    audioChunks (Event.error text :: evs) = audioChunks evs := rfl

@[simp] theorem audioChunks_cons_ttsResult (a b c d : String) (evs : List Event) :
    audioChunks (Event.ttsResult a b c d :: evs) = audioChunks evs := rfl

@[simp] theorem audioChunks_cons_chunkComplete (a : String) (n : Nat) (evs : List Event) :
    audioChunks (Event.chunkComplete a n :: evs) = audioChunks evs := rfl

/-- The `audioChunk` events of the provider call, the loop and the store of `generateTTS`. -/
theorem generateTTSSpeak_audioChunks (w : World) (r : Run) (voiceId text modelId : String)
    (stream : Upstream) (hr : audioChunks (emitted r.trace) = [])
    (hs : w.ttsStream voiceId text modelId = Except.ok stream) :
    audioChunks (emitted (generateTTSSpeak w r voiceId text modelId).trace) =
      numbered 0 stream.chunks := by
  rw [generateTTSSpeak_trace, hs]
  obtain ⟨chunks, failure⟩ := stream
  cases failure with
  | some e => simp [hr]
  | none =>
    cases hw : w.writeFileSync (mp3Path w) (bufferConcat chunks) with
    | some e => simp [hr, hw]
    | none => simp [hr, hw]

/-- C1: for the upstream chunk sequence handed to `generateTTS` (`index.js`) or `textChunk`
(`server.js`), the `audioChunk` events emitted are exactly one per chunk, the `i`-th carrying
`seq = i` and the base64 text of chunk `i`: the `seq` values are `0..N-1` in arrival order. -/
theorem audioChunk_events_in_arrival_order (w : World) (sock : Socket) (msg : Msg)
    (text voiceId : String) (stream : Upstream) :
    (∀ spoken : String, msg.text = some text → msg.voiceId = some voiceId →
      text ≠ "" → voiceId ≠ "" → Spoken w text (msg.language.getD "en") spoken →
      w.ttsStream voiceId spoken (msg.modelId.getD "eleven_flash_v2_5") = Except.ok stream →
      InArrivalOrder (audioChunks (emitted (generateTTS w sock msg).trace)) stream.chunks) ∧
    (msg.text = some text → msg.voiceId = some voiceId →
      text ≠ "" → voiceId ≠ "" → jsLength text ≤ 2000 →
      w.ttsStream voiceId text (msg.modelId.getD "eleven_multilingual_v2") = Except.ok stream →
      InArrivalOrder (audioChunks (emitted (textChunk w sock msg).trace)) stream.chunks) := by
  constructor
  · intro spoken ht hv hte hve hsp hs
    have key : audioChunks (emitted (generateTTS w sock msg).trace) = numbered 0 stream.chunks := by
      rw [generateTTS_trace_valid w sock msg text voiceId ht hv hte hve]
      unfold Spoken at hsp
      by_cases hl : msg.language.getD "en" = "hi"
      · simp only [hl, if_true] at hsp ⊢
        simp only [hsp, emitted_cons_log, emitted_cons_translateCall]
        exact generateTTSSpeak_audioChunks w _ voiceId spoken _ stream (by simp) hs
      · simp only [hl, if_false] at hsp ⊢
        subst hsp
        simp only [emitted_cons_log]
        exact generateTTSSpeak_audioChunks w _ voiceId spoken _ stream (by simp) hs
    rw [key]
    exact numbered_inArrivalOrder stream.chunks
  · intro ht hv hte hve hlen hs
    have key : audioChunks (emitted (textChunk w sock msg).trace) = numbered 0 stream.chunks := by
      rw [textChunk_trace_valid w sock msg text voiceId ht hv hte hve hlen, hs]
      obtain ⟨chunks, failure⟩ := stream
      cases failure with
      | some e => simp
      | none => simp
    rw [key]
    exact numbered_inArrivalOrder stream.chunks

/-- A run of each streaming handler on the sample upstream sequence of two chunks. -/
theorem audioChunk_events_in_arrival_order_witness :
    InArrivalOrder (audioChunks (emitted (generateTTS sampleWorld freshSocket sampleMsg).trace))
      sampleStream.chunks ∧
    InArrivalOrder (audioChunks (emitted (textChunk sampleWorld freshSocket sampleMsg).trace))
      sampleStream.chunks :=
  ⟨(audioChunk_events_in_arrival_order sampleWorld freshSocket sampleMsg "hello" "v1"
      sampleStream).1 "hello" rfl rfl (by decide) (by decide) (by simp [Spoken, sampleMsg]) rfl,
   (audioChunk_events_in_arrival_order sampleWorld freshSocket sampleMsg "hello" "v1"
      sampleStream).2 rfl rfl (by decide) (by decide) (by decide) rfl⟩

/-! ## The client side of the socket -/

theorem deliverAll_received (s : Socket) (evs : List Event) :
    (s.deliverAll evs).received = s.received ++ reaching s.openFor evs := by
  induction evs generalizing s with
  | nil => cases h : s.openFor <;> simp [Socket.deliverAll, reaching]
  | cons ev evs ih =>
    have h := ih (s.deliver ev)
    simp only [Socket.deliverAll, List.foldl_cons] at h ⊢
    rw [h]
    obtain ⟨openFor, received⟩ := s
    cases openFor with
    | none => simp [Socket.deliver, reaching]
    | some k =>
      cases k with
      | zero => simp [Socket.deliver, reaching]
      | succ k => simp [Socket.deliver, reaching]

theorem Run.tracks_start (s : Socket) : (Run.start s).Tracks s := by
  simp [Run.Tracks, Run.start, Socket.deliverAll, emitted]

theorem Run.tracks_emit (r : Run) (s : Socket) (ev : Event) (h : r.Tracks s) :
    (r.emit ev).Tracks s := by
  unfold Run.Tracks at h ⊢
  simp [Run.emit, h, Socket.deliverAll, List.foldl_append]

theorem Run.tracks_effect (r : Run) (s : Socket) (e : Effect) (he : emitted [e] = [])
    (h : r.Tracks s) : (r.effect e).Tracks s := by
  unfold Run.Tracks at h ⊢
  simp [Run.effect, h, he]

theorem Run.tracks_fail (r : Run) (s : Socket) (label : List LogItem) (e : Err)
    (h : r.Tracks s) : (r.fail label e).Tracks s :=
  Run.tracks_emit _ s _ (Run.tracks_effect _ s _ rfl h)

theorem relay_tracks (st : Relay) (s : Socket) (cs : List Buffer) (h : st.run.Tracks s) :
    (relay st cs).run.Tracks s := by
  induction cs generalizing st with
  | nil => exact h
  | cons c cs ih => exact ih (relayStep st c) (Run.tracks_emit _ s _ h)

theorem forward_tracks (st : Forward) (s : Socket) (cs : List Buffer) (h : st.run.Tracks s) :
    (forward st cs).run.Tracks s := by
  induction cs generalizing st with
  | nil => exact h
  | cons c cs ih => exact ih (forwardStep st c) (Run.tracks_emit _ s _ h)

theorem generateTTSSpeak_tracks (w : World) (r : Run) (s : Socket)
    (voiceId text modelId : String) (h : r.Tracks s) :
    (generateTTSSpeak w r voiceId text modelId).Tracks s := by
  unfold generateTTSSpeak
  have h0 : (r.effect (Effect.ttsCall voiceId text modelId)).Tracks s :=
    Run.tracks_effect _ s _ rfl h
  cases hs : w.ttsStream voiceId text modelId with
  | error e => exact Run.tracks_fail _ s _ _ h0
  | ok stream =>
    obtain ⟨chunks, failure⟩ := stream
    have h1 := relay_tracks
      { chunks := [], counter := 0, run := r.effect (Effect.ttsCall voiceId text modelId) }
      s chunks h0
    cases failure with
    | some e => exact Run.tracks_fail _ s _ _ h1
    | none =>
      simp only
      split
      · exact Run.tracks_fail _ s _ _ (Run.tracks_effect _ s _ rfl h1)
      · exact Run.tracks_emit _ s _ (Run.tracks_effect _ s _ rfl h1)

theorem generateTTS_tracks (w : World) (sock : Socket) (msg : Msg) :
    (generateTTS w sock msg).Tracks sock := by
  unfold generateTTS
  have h0 := Run.tracks_start sock
  split
  · split
    · exact Run.tracks_emit _ _ _ h0
    · have h1 := fun e => Run.tracks_effect (Run.start sock) sock (Effect.log e) rfl h0
      simp only
      split
      · split
        · exact Run.tracks_fail _ _ _ _ (Run.tracks_effect _ _ _ rfl (h1 _))
        · exact generateTTSSpeak_tracks _ _ _ _ _ _
            (Run.tracks_effect _ _ _ rfl (Run.tracks_effect _ _ _ rfl (h1 _)))
      · exact generateTTSSpeak_tracks _ _ _ _ _ _ (h1 _)
  · exact Run.tracks_emit _ _ _ h0

theorem textChunk_tracks (w : World) (sock : Socket) (msg : Msg) :
    (textChunk w sock msg).Tracks sock := by
  unfold textChunk
  have h0 := Run.tracks_start sock
  split
  · split
    · exact Run.tracks_emit _ _ _ h0
    · split
      · exact Run.tracks_emit _ _ _ h0
      · simp only
        split
        · exact Run.tracks_fail _ _ _ _ (Run.tracks_effect _ _ _ rfl h0)
        · split
          · exact Run.tracks_fail _ _ _ _
              (forward_tracks _ _ _ (Run.tracks_effect _ _ _ rfl h0))
          · exact Run.tracks_emit _ _ _
              (forward_tracks _ _ _ (Run.tracks_effect _ _ _ rfl h0))
  · exact Run.tracks_emit _ _ _ h0

/-- What reaches the client of `generateTTS`: the emitted events, cut where the client left. -/
theorem generateTTS_received (w : World) (sock : Socket) (msg : Msg) :
    (generateTTS w sock msg).socket.received =
      sock.received ++ reaching sock.openFor (emitted (generateTTS w sock msg).trace) := by
  rw [generateTTS_tracks w sock msg, deliverAll_received]

/-- What reaches the client of `textChunk`: the emitted events, cut where the client left. -/
theorem textChunk_received (w : World) (sock : Socket) (msg : Msg) :
    (textChunk w sock msg).socket.received =
      sock.received ++ reaching sock.openFor (emitted (textChunk w sock msg).trace) := by
  rw [textChunk_tracks w sock msg, deliverAll_received]

/-! ## Observations of the handlers of `index.js` -/

@[simp] theorem fileWrites_cons_log (items : List LogItem) (t : Trace) :
    fileWrites (Effect.log items :: t) = fileWrites t := rfl

@[simp] theorem fileWrites_cons_translateCall (text target : String) (t : Trace) :
    fileWrites (Effect.translateCall text target :: t) = fileWrites t := rfl

@[simp] theorem fileWrites_cons_ttsCall (voiceId text modelId : String) (t : Trace) :
    fileWrites (Effect.ttsCall voiceId text modelId :: t) = fileWrites t := rfl

@[simp] theorem fileWrites_cons_emit (ev : Event) (t : Trace) :
    fileWrites (Effect.emit ev :: t) = fileWrites t := rfl

@[simp] theorem fileWrites_cons_respond (status : Nat) (body : Payload) (t : Trace) :
    fileWrites (Effect.respond status body :: t) = fileWrites t := rfl

@[simp] theorem fileWrites_cons_writeFile (path : String) (data : Buffer) (t : Trace) :
    fileWrites (Effect.writeFile path data :: t) = (path, data) :: fileWrites t := rfl

@[simp] theorem networkCalls_cons_log (items : List LogItem) (t : Trace) :
    networkCalls (Effect.log items :: t) = networkCalls t := rfl

@[simp] theorem networkCalls_cons_translateCall (text target : String) (t : Trace) :
    networkCalls (Effect.translateCall text target :: t) =
      Effect.translateCall text target :: networkCalls t := rfl

@[simp] theorem networkCalls_cons_ttsCall (voiceId text modelId : String) (t : Trace) :
    networkCalls (Effect.ttsCall voiceId text modelId :: t) =
      Effect.ttsCall voiceId text modelId :: networkCalls t := rfl

@[simp] theorem networkCalls_cons_emit (ev : Event) (t : Trace) :
    networkCalls (Effect.emit ev :: t) = networkCalls t := rfl

@[simp] theorem networkCalls_cons_respond (status : Nat) (body : Payload) (t : Trace) :
    networkCalls (Effect.respond status body :: t) = networkCalls t := rfl

@[simp] theorem networkCalls_cons_writeFile (path : String) (data : Buffer) (t : Trace) :
    networkCalls (Effect.writeFile path data :: t) = networkCalls t := rfl

@[simp] theorem responses_cons_log (items : List LogItem) (t : Trace) :
    responses (Effect.log items :: t) = responses t := rfl

@[simp] theorem responses_cons_translateCall (text target : String) (t : Trace) :
    responses (Effect.translateCall text target :: t) = responses t := rfl

@[simp] theorem responses_cons_ttsCall (voiceId text modelId : String) (t : Trace) :
    responses (Effect.ttsCall voiceId text modelId :: t) = responses t := rfl

@[simp] theorem responses_cons_writeFile (path : String) (data : Buffer) (t : Trace) :
    responses (Effect.writeFile path data :: t) = responses t := rfl

@[simp] theorem responses_cons_respond (status : Nat) (body : Payload) (t : Trace) :
    responses (Effect.respond status body :: t) = (status, body) :: responses t := rfl

/-- The events `generateTTS` emits from the provider call on. -/
theorem generateTTSSpeak_emitted (w : World) (r : Run) (voiceId text modelId : String) :
    emitted (generateTTSSpeak w r voiceId text modelId).trace =
      emitted r.trace ++
        match w.ttsStream voiceId text modelId with
        | Except.error _ => [Event.error "TTS generation failed"]
        | Except.ok stream =>
          numbered 0 stream.chunks ++
            match stream.failure with
            | some _ => [Event.error "TTS generation failed"]
            | none =>
              match w.writeFileSync (mp3Path w) (bufferConcat stream.chunks) with
              | some _ => [Event.error "TTS generation failed"]
              | none => [Event.ttsResult "Audio saved locally" text (mp3Path w)
                  (toBase64 (bufferConcat stream.chunks))] := by
  rw [generateTTSSpeak_trace]
  cases hs : w.ttsStream voiceId text modelId with
  | error e => simp
  | ok stream =>
    obtain ⟨chunks, failure⟩ := stream
    cases failure with
    | some e => simp
    | none =>
      cases hw : w.writeFileSync (mp3Path w) (bufferConcat chunks) with
      | some e => simp [hw]
      | none => simp [hw]

/-- The file writes of `generateTTS` from the provider call on. -/
theorem generateTTSSpeak_fileWrites (w : World) (r : Run) (voiceId text modelId : String) :
    fileWrites (generateTTSSpeak w r voiceId text modelId).trace =
      fileWrites r.trace ++
        match w.ttsStream voiceId text modelId with
        | Except.error _ => []
        | Except.ok stream =>
          match stream.failure with
          | some _ => []
          | none => [(mp3Path w, bufferConcat stream.chunks)] := by
  rw [generateTTSSpeak_trace]
  cases hs : w.ttsStream voiceId text modelId with
  | error e => simp [failTail]
  | ok stream =>
    obtain ⟨chunks, failure⟩ := stream
    cases failure with
    | some e => simp [failTail]
    | none =>
      cases hw : w.writeFileSync (mp3Path w) (bufferConcat chunks) with
      | some e => simp [hw, failTail]
      | none => simp [hw]

/-- The network calls of `generateTTS` from the provider call on: the provider call alone. -/
theorem generateTTSSpeak_networkCalls (w : World) (r : Run) (voiceId text modelId : String) :
    networkCalls (generateTTSSpeak w r voiceId text modelId).trace =
      networkCalls r.trace ++ [Effect.ttsCall voiceId text modelId] := by
  rw [generateTTSSpeak_trace]
  cases hs : w.ttsStream voiceId text modelId with
  | error e => simp [failTail]
  | ok stream =>
    obtain ⟨chunks, failure⟩ := stream
    cases failure with
    | some e => simp [failTail]
    | none =>
      cases hw : w.writeFileSync (mp3Path w) (bufferConcat chunks) with
      | some e => simp [hw, failTail]
      | none => simp [hw]

/-- The file writes of `POST /tts` from the provider call on. -/
theorem postTtsSpeak_fileWrites (w : World) (t : Trace) (voiceId text modelId : String) :
    fileWrites (postTtsSpeak w t voiceId text modelId) =
      fileWrites t ++
        match w.ttsStream voiceId text modelId with
        | Except.error _ => []
        | Except.ok stream =>
          match stream.failure with
          | some _ => []
          | none => [(mp3Path w, bufferConcat stream.chunks)] := by
  rw [postTtsSpeak_trace]
  cases hs : w.ttsStream voiceId text modelId with
  | error e => simp
  | ok stream =>
    obtain ⟨chunks, failure⟩ := stream
    cases failure with
    | some e => simp
    | none =>
      cases hw : w.writeFileSync (mp3Path w) (bufferConcat chunks) with
      | some e => simp [hw]
      | none => simp [hw]

/-- The responses of `POST /tts` from the provider call on. -/
theorem postTtsSpeak_responses (w : World) (t : Trace) (voiceId text modelId : String) :
    responses (postTtsSpeak w t voiceId text modelId) =
      responses t ++
        match w.ttsStream voiceId text modelId with
        | Except.error _ => [(500, Payload.error "TTS generation failed")]
        | Except.ok stream =>
          match stream.failure with
          | some _ => [(500, Payload.error "TTS generation failed")]
          | none =>
            match w.writeFileSync (mp3Path w) (bufferConcat stream.chunks) with
            | some _ => [(500, Payload.error "TTS generation failed")]
            | none => [(200, Payload.saved "Audio saved locally" text (mp3Path w))] := by
  rw [postTtsSpeak_trace]
  cases hs : w.ttsStream voiceId text modelId with
  | error e => simp
  | ok stream =>
    obtain ⟨chunks, failure⟩ := stream
    cases failure with
    | some e => simp
    | none =>
      cases hw : w.writeFileSync (mp3Path w) (bufferConcat chunks) with
      | some e => simp [hw]
      | none => simp [hw]

/-- The network calls of `POST /tts` from the provider call on: the provider call alone. -/
theorem postTtsSpeak_networkCalls (w : World) (t : Trace) (voiceId text modelId : String) :
    networkCalls (postTtsSpeak w t voiceId text modelId) =
      networkCalls t ++ [Effect.ttsCall voiceId text modelId] := by
  rw [postTtsSpeak_trace]
  cases hs : w.ttsStream voiceId text modelId with
  | error e => simp
  | ok stream =>
    obtain ⟨chunks, failure⟩ := stream
    cases failure with
    | some e => simp
    | none =>
      cases hw : w.writeFileSync (mp3Path w) (bufferConcat chunks) with
      | some e => simp [hw]
      | none => simp [hw]

/-- The file writes of `generateTTS` when the store is reached. -/
theorem generateTTS_fileWrites_ready (w : World) (sock : Socket) (msg : Msg) (spoken : String)
    (stream : Upstream) (h : StoreReady w msg "eleven_flash_v2_5" spoken stream) :
    fileWrites (generateTTS w sock msg).trace = [(mp3Path w, bufferConcat stream.chunks)] := by
  obtain ⟨text, voiceId, ht, hv, hte, hve, hsp, hs, hf⟩ := h
  rw [generateTTS_trace_valid w sock msg text voiceId ht hv hte hve]
  unfold Spoken at hsp
  by_cases hl : msg.language.getD "en" = "hi"
  · simp only [hl, if_true] at hsp ⊢
    simp [hsp, generateTTSSpeak_fileWrites, hs, hf]
  · simp only [hl, if_false] at hsp ⊢
    subst hsp
    simp [generateTTSSpeak_fileWrites, hs, hf]

/-- The file writes of `POST /tts` when the store is reached. -/
theorem postTts_fileWrites_ready (w : World) (body : Msg) (spoken : String)
    (stream : Upstream) (h : StoreReady w body "eleven_multilingual_v2" spoken stream) :
    fileWrites (postTts w body) = [(mp3Path w, bufferConcat stream.chunks)] := by
  obtain ⟨text, voiceId, ht, hv, hte, hve, hsp, hs, hf⟩ := h
  rw [postTts_trace_valid w body text voiceId ht hv hte hve]
  unfold Spoken at hsp
  by_cases hl : body.language.getD "en" = "hi"
  · simp only [hl, if_true] at hsp ⊢
    simp [hsp, postTtsSpeak_fileWrites, hs, hf]
  · simp only [hl, if_false] at hsp ⊢
    subst hsp
    simp [postTtsSpeak_fileWrites, hs, hf]

theorem bufferConcat_length (cs : List Buffer) :
    (bufferConcat cs).length = (cs.map List.length).sum := by
  simp [bufferConcat, List.length_flatten]

theorem base64Char_ne_pad (n : Nat) (h : n < 64) : base64Char n ≠ '=' := by
  interval_cases n <;> decide

theorem base64Chars_shape (bs : List Nat) (h : ∀ b ∈ bs, b < 256) :
    (base64Chars bs).length = 4 * ((bs.length + 2) / 3) ∧
    ((base64Chars bs).filter fun c => c = '=').length = (3 - bs.length % 3) % 3 := by
  induction bs using base64Chars.induct with
  | case1 => simp [base64Chars]
  | case2 a =>
    have ha := h a (by simp)
    have h1 := base64Char_ne_pad (a / 4) (by omega)
    have h2 := base64Char_ne_pad (a % 4 * 16) (by omega)
    simp [base64Chars, h1, h2]
  | case3 a b =>
    have ha := h a (by simp)
    have hb := h b (by simp)
    have h1 := base64Char_ne_pad (a / 4) (by omega)
    have h2 := base64Char_ne_pad (a % 4 * 16 + b / 16) (by omega)
    have h3 := base64Char_ne_pad (b % 16 * 4) (by omega)
    simp [base64Chars, h1, h2, h3]
  | case4 a b c rest ih =>
    have ha := h a (by simp)
    have hb := h b (by simp)
    have hc := h c (by simp)
    have h1 := base64Char_ne_pad (a / 4) (by omega)
    have h2 := base64Char_ne_pad (a % 4 * 16 + b / 16) (by omega)
    have h3 := base64Char_ne_pad (b % 16 * 4 + c / 64) (by omega)
    have h4 := base64Char_ne_pad (c % 64) (by omega)
    obtain ⟨ih1, ih2⟩ := ih fun x hx => h x (by simp [hx])
    simp only [base64Chars, List.length_cons, List.filter_cons, h1, h2, h3, h4, decide_False,
      Bool.false_eq_true, if_false, ih1, ih2]
    constructor <;> omega

theorem base64ByteLength_toBase64 (b : Buffer) : base64ByteLength (toBase64 b) = b.length := by
  obtain ⟨h1, h2⟩ := base64Chars_shape (b.map Fin.val) (by simp)
  unfold base64ByteLength toBase64
  simp only [String.length, String.toList]
  rw [h1, h2]
  simp only [List.length_map]
  omega

theorem numbered_payloadBytes (start : Nat) (cs : List Buffer) :
    ((numbered start cs).map Event.payloadBytes).sum = (cs.map List.length).sum := by
  induction cs generalizing start with
  | nil => rfl
  | cons c cs ih =>
    simp [numbered, Event.payloadBytes, base64ByteLength_toBase64, ih]

/-- C2: when the upstream sequence of a valid request completes, the single file write of
`generateTTS` and of `POST /tts` (`index.js`) carries the concatenation of the chunks in arrival
order, whose length is the sum of the chunk lengths and of the payload lengths of the emitted
`audioChunk` events; this holds for every state of the client socket, which only decides how
many of the emitted events reach the client. -/
theorem stored_file_is_upstream_concatenation (w : World) (sock : Socket) (msg : Msg)
    (spoken : String) (stream : Upstream) :
    (StoreReady w msg "eleven_flash_v2_5" spoken stream →
      fileWrites (generateTTS w sock msg).trace = [(mp3Path w, bufferConcat stream.chunks)] ∧
      audioChunks (emitted (generateTTS w sock msg).trace) = numbered 0 stream.chunks ∧
      (bufferConcat stream.chunks).length =
        ((audioChunks (emitted (generateTTS w sock msg).trace)).map Event.payloadBytes).sum ∧
      (generateTTS w sock msg).socket.received =
        sock.received ++ reaching sock.openFor (emitted (generateTTS w sock msg).trace)) ∧
    (StoreReady w msg "eleven_multilingual_v2" spoken stream →
      fileWrites (postTts w msg) = [(mp3Path w, bufferConcat stream.chunks)]) ∧
    bufferConcat stream.chunks = stream.chunks.flatten ∧
    (bufferConcat stream.chunks).length = (stream.chunks.map List.length).sum := by
  have key : StoreReady w msg "eleven_flash_v2_5" spoken stream →
      audioChunks (emitted (generateTTS w sock msg).trace) = numbered 0 stream.chunks := by
    intro h
    obtain ⟨text, voiceId, ht, hv, hte, hve, hsp, hs, -⟩ := h
    rw [generateTTS_trace_valid w sock msg text voiceId ht hv hte hve]
    unfold Spoken at hsp
    by_cases hl : msg.language.getD "en" = "hi"
    · simp only [hl, if_true] at hsp ⊢
      simp only [hsp, emitted_cons_log, emitted_cons_translateCall]
      exact generateTTSSpeak_audioChunks w _ voiceId spoken _ stream (by simp) hs
    · simp only [hl, if_false] at hsp ⊢
      subst hsp
      simp only [emitted_cons_log]
      exact generateTTSSpeak_audioChunks w _ voiceId spoken _ stream (by simp) hs
  exact ⟨fun h => ⟨generateTTS_fileWrites_ready w sock msg spoken stream h, key h,
      by rw [key h, numbered_payloadBytes, bufferConcat_length],
      generateTTS_received w sock msg⟩,
    fun h => postTts_fileWrites_ready w msg spoken stream h, rfl, bufferConcat_length _⟩

/-- A client that leaves after chunk 2 of 5: two events reach it, the file holds all eight
octets of the five chunks. -/
theorem stored_file_is_upstream_concatenation_witness :
    fileWrites (generateTTS fiveWorld leavingSocket sampleMsg).trace =
      [(mp3Path fiveWorld, bufferConcat fiveChunks.chunks)] ∧
    audioChunks (emitted (generateTTS fiveWorld leavingSocket sampleMsg).trace) =
      numbered 0 fiveChunks.chunks ∧
    (bufferConcat fiveChunks.chunks).length =
      ((audioChunks (emitted (generateTTS fiveWorld leavingSocket sampleMsg).trace)).map
        Event.payloadBytes).sum ∧
    (generateTTS fiveWorld leavingSocket sampleMsg).socket.received =
      leavingSocket.received ++
        reaching leavingSocket.openFor (emitted (generateTTS fiveWorld leavingSocket sampleMsg).trace) :=
  (stored_file_is_upstream_concatenation fiveWorld leavingSocket sampleMsg "hello" fiveChunks).1
    ⟨"hello", "v1", rfl, rfl, by decide, by decide, by simp [Spoken, sampleMsg], rfl, rfl⟩

/-! ## The shape of the event sequence -/

theorem Msg.valid_or_invalid (msg : Msg) :
    (msg.text = none ∨ msg.text = some "" ∨ msg.voiceId = none ∨ msg.voiceId = some "") ∨
    ∃ text voiceId : String, msg.text = some text ∧ msg.voiceId = some voiceId ∧
      text ≠ "" ∧ voiceId ≠ "" := by
  cases ht : msg.text with
  | none => simp
  | some text =>
    cases hv : msg.voiceId with
    | none => simp
    | some voiceId =>
      by_cases hte : text = ""
      · simp [hte]
      · by_cases hve : voiceId = ""
        · simp [hve]
        · exact Or.inr ⟨text, voiceId, rfl, rfl, hte, hve⟩

theorem numbered_not_terminal (start : Nat) (cs : List Buffer) :
    ∀ ev ∈ numbered start cs, ev.isCompletion = false ∧ ev.isError = false := by
  induction cs generalizing start with
  | nil => simp [numbered]
  | cons c cs ih =>
    intro ev hev
    simp only [numbered, List.mem_cons] at hev
    rcases hev with rfl | hev
    · exact ⟨rfl, rfl⟩
    · exact ih _ ev hev

/-- The events of the provider call, the loop and the store of `generateTTS`: the numbered
chunks, then one terminal event, a completion only after the write of the whole sequence. -/
theorem generateTTSSpeak_shape (w : World) (sock : Socket) (voiceId text modelId : String) :
    ∃ (cs : List Buffer) (last : Event),
      emitted (generateTTSSpeak w (Run.start sock) voiceId text modelId).trace =
        numbered 0 cs ++ [last] ∧
      (last.isCompletion = true ∨ last.isError = true) ∧
      (last.isCompletion = true → ∃ (stream : Upstream) (pre : Trace),
        w.ttsStream voiceId text modelId = Except.ok stream ∧ stream.failure = none ∧
        cs = stream.chunks ∧
        (generateTTSSpeak w (Run.start sock) voiceId text modelId).trace =
          pre ++ [Effect.emit last] ∧
        fileWrites pre = [(mp3Path w, bufferConcat stream.chunks)]) := by
  rw [generateTTSSpeak_emitted, generateTTSSpeak_trace]
  cases hs : w.ttsStream voiceId text modelId with
  | error e => exact ⟨[], Event.error "TTS generation failed", by simp [numbered], Or.inr rfl, by simp [Event.isCompletion]⟩
  | ok stream =>
    obtain ⟨chunks, failure⟩ := stream
    cases failure with
    | some e =>
      exact ⟨chunks, Event.error "TTS generation failed", by simp, Or.inr rfl,
        by simp [Event.isCompletion]⟩
    | none =>
      cases hw : w.writeFileSync (mp3Path w) (bufferConcat chunks) with
      | some e =>
        exact ⟨chunks, Event.error "TTS generation failed", by simp [hw], Or.inr rfl,
          by simp [Event.isCompletion]⟩
      | none =>
        refine ⟨chunks, Event.ttsResult "Audio saved locally" text (mp3Path w)
          (toBase64 (bufferConcat chunks)), by simp [hw], Or.inl rfl, fun _ => ?_⟩
        refine ⟨⟨chunks, none⟩, Effect.ttsCall voiceId text modelId ::
          ((numbered 0 chunks).map Effect.emit ++
            [Effect.writeFile (mp3Path w) (bufferConcat chunks)]), rfl, rfl, rfl, ?_, ?_⟩
        · simp [hw]
        · simp

/-- C3: the events a run of `generateTTS` (`index.js`) or `textChunk` (`server.js`) emits are
zero or more `audioChunk` events followed by exactly one terminal event, a completion
(`ttsResult` / `chunkComplete`) or an `error`; a completion closes a run in which every upstream
chunk was forwarded (and, in `index.js`, written to the file) before it. -/
theorem events_are_chunks_then_one_terminal (w : World) (sock : Socket) (msg : Msg) :
    (∃ (cs : List Buffer) (last : Event),
      emitted (generateTTS w sock msg).trace = numbered 0 cs ++ [last] ∧
      (∀ ev ∈ numbered 0 cs, ev.isCompletion = false ∧ ev.isError = false) ∧
      (last.isCompletion = true ∨ last.isError = true) ∧
      (last.isCompletion = true → ∃ (spoken : String) (stream : Upstream) (pre : Trace),
        StoreReady w msg "eleven_flash_v2_5" spoken stream ∧ cs = stream.chunks ∧
        (generateTTS w sock msg).trace = pre ++ [Effect.emit last] ∧
        fileWrites pre = [(mp3Path w, bufferConcat stream.chunks)])) ∧
    (∃ (cs : List Buffer) (last : Event),
      emitted (textChunk w sock msg).trace = numbered 0 cs ++ [last] ∧
      (∀ ev ∈ numbered 0 cs, ev.isCompletion = false ∧ ev.isError = false) ∧
      (last.isCompletion = true ∨ last.isError = true) ∧
      (last.isCompletion = true → ∃ (text voiceId : String) (stream : Upstream),
        msg.text = some text ∧ msg.voiceId = some voiceId ∧
        w.ttsStream voiceId text (msg.modelId.getD "eleven_multilingual_v2") = Except.ok stream ∧
        stream.failure = none ∧ cs = stream.chunks ∧
        last = Event.chunkComplete "done" stream.chunks.length)) := by
  constructor
  · rcases Msg.valid_or_invalid msg with hinv | ⟨text, voiceId, ht, hv, hte, hve⟩
    · exact ⟨[], Event.error "text and voiceId required",
        by simp [generateTTS_trace_invalid w sock msg hinv, numbered],
        numbered_not_terminal 0 [], Or.inr rfl, by simp [Event.isCompletion]⟩
    · rw [generateTTS_trace_valid w sock msg text voiceId ht hv hte hve]
      by_cases hl : msg.language.getD "en" = "hi"
      · simp only [hl, if_true]
        cases htr : w.translate text "hi" with
        | error e =>
          exact ⟨[], Event.error "TTS generation failed", by simp [numbered],
            numbered_not_terminal 0 [], Or.inr rfl, by simp [Event.isCompletion]⟩
        | ok translated =>
          obtain ⟨cs, last, h1, h2, h3⟩ := generateTTSSpeak_shape w sock voiceId translated
            (msg.modelId.getD "eleven_flash_v2_5")
          refine ⟨cs, last, by simp [h1], numbered_not_terminal 0 cs, h2, fun hc => ?_⟩
          obtain ⟨stream, pre, hs, hf, hcs, htrace, hfw⟩ := h3 hc
          refine ⟨translated, stream,
            Effect.log [LogItem.str text, LogItem.str voiceId, LogItem.str "hi"] ::
              Effect.translateCall text "hi" ::
              Effect.log [LogItem.str "Translated to Hindi:", LogItem.str translated] :: pre,
            ⟨text, voiceId, ht, hv, hte, hve, by simp [Spoken, hl, htr], hs, hf⟩, hcs, ?_, ?_⟩
          · simp only [htrace, List.cons_append]
          · simpa using hfw
      · simp only [hl, if_false]
        obtain ⟨cs, last, h1, h2, h3⟩ := generateTTSSpeak_shape w sock voiceId text
          (msg.modelId.getD "eleven_flash_v2_5")
        refine ⟨cs, last, by simp [h1], numbered_not_terminal 0 cs, h2, fun hc => ?_⟩
        obtain ⟨stream, pre, hs, hf, hcs, htrace, hfw⟩ := h3 hc
        refine ⟨text, stream,
          Effect.log [LogItem.str text, LogItem.str voiceId,
            LogItem.str (msg.language.getD "en")] :: pre,
          ⟨text, voiceId, ht, hv, hte, hve, by simp [Spoken, hl], hs, hf⟩, hcs, ?_, ?_⟩
        · simp only [htrace, List.cons_append]
        · simpa using hfw
  · rcases Msg.valid_or_invalid msg with hinv | ⟨text, voiceId, ht, hv, hte, hve⟩
    · exact ⟨[], Event.error "text and voiceId required",
        by simp [textChunk_trace_invalid w sock msg hinv, numbered],
        numbered_not_terminal 0 [], Or.inr rfl, by simp [Event.isCompletion]⟩
    · by_cases hlen : jsLength text ≤ 2000
      · rw [textChunk_trace_valid w sock msg text voiceId ht hv hte hve hlen]
        cases hs : w.ttsStream voiceId text (msg.modelId.getD "eleven_multilingual_v2") with
        | error e =>
          exact ⟨[], Event.error "TTS generation failed", by simp [numbered],
            numbered_not_terminal 0 [], Or.inr rfl, by simp [Event.isCompletion]⟩
        | ok stream =>
          obtain ⟨chunks, failure⟩ := stream
          cases failure with
          | some e =>
            exact ⟨chunks, Event.error "TTS generation failed", by simp,
              numbered_not_terminal 0 chunks, Or.inr rfl, by simp [Event.isCompletion]⟩
          | none =>
            exact ⟨chunks, Event.chunkComplete "done" chunks.length, by simp,
              numbered_not_terminal 0 chunks, Or.inl rfl,
              fun _ => ⟨text, voiceId, ⟨chunks, none⟩, ht, hv, hs, rfl, rfl, rfl⟩⟩
      · have hlong : jsLength text > 2000 := by omega
        refine ⟨[], Event.error "chunk too long", ?_, numbered_not_terminal 0 [], Or.inr rfl,
          by simp [Event.isCompletion]⟩
        unfold textChunk
        simp [ht, hv, hte, hve, hlong, numbered]

/-! ## Reaching the store -/

theorem Spoken.unique (w : World) (text language a b : String)
    (ha : Spoken w text language a) (hb : Spoken w text language b) : a = b := by
  unfold Spoken at ha hb
  by_cases hl : language = "hi"
  · simp only [hl, if_true] at ha hb
    rw [ha] at hb
    exact Except.ok.inj hb
  · simp only [hl, if_false] at ha hb
    rw [ha, hb]

theorem StoreReady.invalid (w : World) (msg : Msg) (model spoken : String) (stream : Upstream)
    (hinv : msg.text = none ∨ msg.text = some "" ∨ msg.voiceId = none ∨ msg.voiceId = some "")
    (h : StoreReady w msg model spoken stream) : False := by
  obtain ⟨text, voiceId, ht, hv, hte, hve, -⟩ := h
  rcases hinv with h | h | h | h
  · simp [ht] at h
  · rw [ht] at h; exact hte (Option.some.inj h)
  · simp [hv] at h
  · rw [hv] at h; exact hve (Option.some.inj h)

theorem StoreReady.stream_eq (w : World) (msg : Msg) (model text voiceId spoken spoken0 : String)
    (stream : Upstream) (ht : msg.text = some text) (hv : msg.voiceId = some voiceId)
    (hsp0 : Spoken w text (msg.language.getD "en") spoken0)
    (h : StoreReady w msg model spoken stream) :
    w.ttsStream voiceId spoken0 (msg.modelId.getD model) = Except.ok stream ∧
      stream.failure = none := by
  obtain ⟨text1, voiceId1, ht1, hv1, -, -, hsp, hs, hf⟩ := h
  rw [ht] at ht1
  rw [hv] at hv1
  cases Option.some.inj ht1
  cases Option.some.inj hv1
  rw [Spoken.unique w text _ spoken0 spoken hsp0 hsp]
  exact ⟨hs, hf⟩

theorem StoreReady.no_translation (w : World) (msg : Msg) (model text spoken : String)
    (stream : Upstream) (e : Err) (ht : msg.text = some text)
    (hl : msg.language.getD "en" = "hi") (htr : w.translate text "hi" = Except.error e)
    (h : StoreReady w msg model spoken stream) : False := by
  obtain ⟨text1, voiceId1, ht1, -, -, -, hsp, -⟩ := h
  rw [ht] at ht1
  cases Option.some.inj ht1
  unfold Spoken at hsp
  simp [hl, htr] at hsp

/-- The trace of `generateTTS` when the translator throws. -/
theorem generateTTS_translation_failed (w : World) (sock : Socket) (msg : Msg)
    (text voiceId : String) (e : Err) (ht : msg.text = some text)
    (hv : msg.voiceId = some voiceId) (hte : text ≠ "") (hve : voiceId ≠ "")
    (hl : msg.language.getD "en" = "hi") (htr : w.translate text "hi" = Except.error e) :
    (generateTTS w sock msg).trace =
      [Effect.log [LogItem.str text, LogItem.str voiceId, LogItem.str "hi"],
        Effect.translateCall text "hi", Effect.log [LogItem.thrown e],
        Effect.emit (Event.error "TTS generation failed")] := by
  rw [generateTTS_trace_valid w sock msg text voiceId ht hv hte hve]
  simp [hl, htr, failTail]

/-- The trace of `POST /tts` in `index.js` when the translator throws. -/
theorem postTts_translation_failed (w : World) (body : Msg)
    (text voiceId : String) (e : Err) (ht : body.text = some text)
    (hv : body.voiceId = some voiceId) (hte : text ≠ "") (hve : voiceId ≠ "")
    (hl : body.language.getD "en" = "hi") (htr : w.translate text "hi" = Except.error e) :
    postTts w body =
      [Effect.translateCall text "hi", Effect.log [LogItem.thrown e],
        Effect.respond 500 (Payload.error "TTS generation failed")] := by
  rw [postTts_trace_valid w body text voiceId ht hv hte hve]
  simp [hl, htr]

/-- The observations of `generateTTS` once the text for the provider is known. -/
theorem generateTTS_after_translation (w : World) (sock : Socket) (msg : Msg)
    (text voiceId spoken : String) (ht : msg.text = some text)
    (hv : msg.voiceId = some voiceId) (hte : text ≠ "") (hve : voiceId ≠ "")
    (hsp : Spoken w text (msg.language.getD "en") spoken) :
    fileWrites (generateTTS w sock msg).trace =
      fileWrites (generateTTSSpeak w (Run.start sock) voiceId spoken
        (msg.modelId.getD "eleven_flash_v2_5")).trace ∧
    emitted (generateTTS w sock msg).trace =
      emitted (generateTTSSpeak w (Run.start sock) voiceId spoken
        (msg.modelId.getD "eleven_flash_v2_5")).trace ∧
    networkCalls (generateTTS w sock msg).trace =
      (if msg.language.getD "en" = "hi" then [Effect.translateCall text "hi"] else []) ++
        [Effect.ttsCall voiceId spoken (msg.modelId.getD "eleven_flash_v2_5")] := by
  rw [generateTTS_trace_valid w sock msg text voiceId ht hv hte hve]
  unfold Spoken at hsp
  by_cases hl : msg.language.getD "en" = "hi"
  · simp only [hl, if_true] at hsp ⊢
    simp [hsp, generateTTSSpeak_networkCalls]
  · simp only [hl, if_false] at hsp ⊢
    subst hsp
    simp [generateTTSSpeak_networkCalls]

/-- The observations of `POST /tts` in `index.js` once the text for the provider is known. -/
theorem postTts_after_translation (w : World) (body : Msg)
    (text voiceId spoken : String) (ht : body.text = some text)
    (hv : body.voiceId = some voiceId) (hte : text ≠ "") (hve : voiceId ≠ "")
    (hsp : Spoken w text (body.language.getD "en") spoken) :
    fileWrites (postTts w body) =
      fileWrites (postTtsSpeak w [] voiceId spoken
        (body.modelId.getD "eleven_multilingual_v2")) ∧
    responses (postTts w body) =
      responses (postTtsSpeak w [] voiceId spoken
        (body.modelId.getD "eleven_multilingual_v2")) ∧
    networkCalls (postTts w body) =
      (if body.language.getD "en" = "hi" then [Effect.translateCall text "hi"] else []) ++
        [Effect.ttsCall voiceId spoken (body.modelId.getD "eleven_multilingual_v2")] := by
  rw [postTts_trace_valid w body text voiceId ht hv hte hve]
  unfold Spoken at hsp
  by_cases hl : body.language.getD "en" = "hi"
  · simp only [hl, if_true] at hsp ⊢
    simp [hsp, postTtsSpeak_networkCalls]
  · simp only [hl, if_false] at hsp ⊢
    subst hsp
    simp [postTtsSpeak_networkCalls]

/-- The translator either hands over a text for the provider or throws. -/
theorem Spoken.total (w : World) (text language : String) :
    (∃ spoken, Spoken w text language spoken) ∨
      (language = "hi" ∧ ∃ e, w.translate text "hi" = Except.error e) := by
  unfold Spoken
  by_cases hl : language = "hi"
  · cases htr : w.translate text "hi" with
    | error e => exact Or.inr ⟨hl, e, rfl⟩
    | ok t => exact Or.inl ⟨t, by simp [hl]⟩
  · exact Or.inl ⟨text, by simp [hl]⟩

/-- From the provider call on, `generateTTS` either sees the stream end and writes the whole
sequence once, or writes nothing and emits no completion. -/
theorem generateTTSSpeak_store_or_not (w : World) (sock : Socket)
    (voiceId text modelId : String) :
    (∃ stream : Upstream, w.ttsStream voiceId text modelId = Except.ok stream ∧
      stream.failure = none ∧
      fileWrites (generateTTSSpeak w (Run.start sock) voiceId text modelId).trace =
        [(mp3Path w, bufferConcat stream.chunks)]) ∨
    ((∀ stream : Upstream, w.ttsStream voiceId text modelId = Except.ok stream →
        stream.failure ≠ none) ∧
      fileWrites (generateTTSSpeak w (Run.start sock) voiceId text modelId).trace = [] ∧
      ∀ ev ∈ emitted (generateTTSSpeak w (Run.start sock) voiceId text modelId).trace,
        ev.isCompletion = false) := by
  rw [generateTTSSpeak_fileWrites, generateTTSSpeak_emitted]
  cases hs : w.ttsStream voiceId text modelId with
  | error e => exact Or.inr ⟨by simp, by simp, by simp [Event.isCompletion]⟩
  | ok stream =>
    obtain ⟨chunks, failure⟩ := stream
    cases failure with
    | some e =>
      refine Or.inr ⟨by simp, by simp, ?_⟩
      intro ev hev
      simp only [Run.trace_start, emitted_nil, List.nil_append, List.mem_append,
        List.mem_singleton] at hev
      rcases hev with hev | rfl
      · exact (numbered_not_terminal 0 chunks ev hev).1
      · rfl
    | none => exact Or.inl ⟨⟨chunks, none⟩, rfl, rfl, by simp⟩

/-- From the provider call on, `POST /tts` either sees the stream end and writes the whole
sequence once, or writes nothing and sends no success response. -/
theorem postTtsSpeak_store_or_not (w : World) (voiceId text modelId : String) :
    (∃ stream : Upstream, w.ttsStream voiceId text modelId = Except.ok stream ∧
      stream.failure = none ∧
      fileWrites (postTtsSpeak w [] voiceId text modelId) =
        [(mp3Path w, bufferConcat stream.chunks)]) ∨
    ((∀ stream : Upstream, w.ttsStream voiceId text modelId = Except.ok stream →
        stream.failure ≠ none) ∧
      fileWrites (postTtsSpeak w [] voiceId text modelId) = [] ∧
      ∀ r ∈ responses (postTtsSpeak w [] voiceId text modelId), r.1 ≠ 200) := by
  rw [postTtsSpeak_fileWrites, postTtsSpeak_responses]
  cases hs : w.ttsStream voiceId text modelId with
  | error e => exact Or.inr ⟨by simp, by simp, by simp⟩
  | ok stream =>
    obtain ⟨chunks, failure⟩ := stream
    cases failure with
    | some e => exact Or.inr ⟨by simp, by simp, by simp⟩
    | none => exact Or.inl ⟨⟨chunks, none⟩, rfl, rfl, by simp⟩

/-- C4: a session of `index.js` (`generateTTS`, `POST /tts`) issues at most one file write, of
the whole concatenated buffer, and it issues it exactly when validation passed, the translator
(when used) returned and the upstream sequence ended without a throw; when the upstream sequence
breaks after `k` chunks no file is written and no completion or success response is produced. -/
theorem file_written_once_iff_store_reached (w : World) (sock : Socket) (msg : Msg) :
    ((∃ (spoken : String) (stream : Upstream),
        StoreReady w msg "eleven_flash_v2_5" spoken stream ∧
        fileWrites (generateTTS w sock msg).trace =
          [(mp3Path w, bufferConcat stream.chunks)]) ∨
      ((¬ ∃ (spoken : String) (stream : Upstream),
          StoreReady w msg "eleven_flash_v2_5" spoken stream) ∧
        fileWrites (generateTTS w sock msg).trace = [] ∧
        ∀ ev ∈ emitted (generateTTS w sock msg).trace, ev.isCompletion = false)) ∧
    ((∃ (spoken : String) (stream : Upstream),
        StoreReady w msg "eleven_multilingual_v2" spoken stream ∧
        fileWrites (postTts w msg) = [(mp3Path w, bufferConcat stream.chunks)]) ∨
      ((¬ ∃ (spoken : String) (stream : Upstream),
          StoreReady w msg "eleven_multilingual_v2" spoken stream) ∧
        fileWrites (postTts w msg) = [] ∧
        ∀ r ∈ responses (postTts w msg), r.1 ≠ 200)) ∧
    (∀ (text voiceId spoken : String) (stream : Upstream) (e : Err),
      msg.text = some text → msg.voiceId = some voiceId → text ≠ "" → voiceId ≠ "" →
      Spoken w text (msg.language.getD "en") spoken →
      w.ttsStream voiceId spoken (msg.modelId.getD "eleven_flash_v2_5") = Except.ok stream →
      stream.failure = some e →
      fileWrites (generateTTS w sock msg).trace = [] ∧
      emitted (generateTTS w sock msg).trace =
        numbered 0 stream.chunks ++ [Event.error "TTS generation failed"]) ∧
    (∀ (text voiceId spoken : String) (stream : Upstream) (e : Err),
      msg.text = some text → msg.voiceId = some voiceId → text ≠ "" → voiceId ≠ "" →
      Spoken w text (msg.language.getD "en") spoken →
      w.ttsStream voiceId spoken (msg.modelId.getD "eleven_multilingual_v2") = Except.ok stream →
      stream.failure = some e →
      fileWrites (postTts w msg) = [] ∧
      responses (postTts w msg) = [(500, Payload.error "TTS generation failed")]) := by
  refine ⟨?_, ?_, ?_, ?_⟩
  · rcases Msg.valid_or_invalid msg with hinv | ⟨text, voiceId, ht, hv, hte, hve⟩
    · refine Or.inr ⟨fun ⟨spoken, stream, h⟩ => StoreReady.invalid w msg _ spoken stream hinv h,
        ?_, ?_⟩
      · simp [generateTTS_trace_invalid w sock msg hinv]
      · simp [generateTTS_trace_invalid w sock msg hinv, Event.isCompletion]
    · rcases Spoken.total w text (msg.language.getD "en") with ⟨spoken, hsp⟩ | ⟨hl, e, htr⟩
      · obtain ⟨h1, h2, -⟩ :=
          generateTTS_after_translation w sock msg text voiceId spoken ht hv hte hve hsp
        rw [h1, h2]
        rcases generateTTSSpeak_store_or_not w sock voiceId spoken
          (msg.modelId.getD "eleven_flash_v2_5") with ⟨stream, hs, hf, hfw⟩ | ⟨hno, hfw, hev⟩
        · exact Or.inl ⟨spoken, stream, ⟨text, voiceId, ht, hv, hte, hve, hsp, hs, hf⟩, hfw⟩
        · refine Or.inr ⟨?_, hfw, hev⟩
          rintro ⟨spoken1, stream, h⟩
          obtain ⟨hs, hf⟩ := StoreReady.stream_eq w msg _ text voiceId spoken1 spoken stream
            ht hv hsp h
          exact hno stream hs hf
      · refine Or.inr ⟨fun ⟨spoken, stream, h⟩ =>
          StoreReady.no_translation w msg _ text spoken stream e ht hl htr h, ?_, ?_⟩
        · simp [generateTTS_translation_failed w sock msg text voiceId e ht hv hte hve hl htr]
        · simp [generateTTS_translation_failed w sock msg text voiceId e ht hv hte hve hl htr,
            Event.isCompletion]
  · rcases Msg.valid_or_invalid msg with hinv | ⟨text, voiceId, ht, hv, hte, hve⟩
    · refine Or.inr ⟨fun ⟨spoken, stream, h⟩ => StoreReady.invalid w msg _ spoken stream hinv h,
        ?_, ?_⟩
      · simp [postTts_trace_invalid w msg hinv]
      · simp [postTts_trace_invalid w msg hinv]
    · rcases Spoken.total w text (msg.language.getD "en") with ⟨spoken, hsp⟩ | ⟨hl, e, htr⟩
      · obtain ⟨h1, h2, -⟩ :=
          postTts_after_translation w msg text voiceId spoken ht hv hte hve hsp
        rw [h1, h2]
        rcases postTtsSpeak_store_or_not w voiceId spoken
          (msg.modelId.getD "eleven_multilingual_v2") with ⟨stream, hs, hf, hfw⟩ | ⟨hno, hfw, hev⟩
        · exact Or.inl ⟨spoken, stream, ⟨text, voiceId, ht, hv, hte, hve, hsp, hs, hf⟩, hfw⟩
        · refine Or.inr ⟨?_, hfw, hev⟩
          rintro ⟨spoken1, stream, h⟩
          obtain ⟨hs, hf⟩ := StoreReady.stream_eq w msg _ text voiceId spoken1 spoken stream
            ht hv hsp h
          exact hno stream hs hf
      · refine Or.inr ⟨fun ⟨spoken, stream, h⟩ =>
          StoreReady.no_translation w msg _ text spoken stream e ht hl htr h, ?_, ?_⟩
        · simp [postTts_translation_failed w msg text voiceId e ht hv hte hve hl htr]
        · simp [postTts_translation_failed w msg text voiceId e ht hv hte hve hl htr]
  · intro text voiceId spoken stream e ht hv hte hve hsp hs hf
    obtain ⟨h1, h2, -⟩ :=
      generateTTS_after_translation w sock msg text voiceId spoken ht hv hte hve hsp
    rw [h1, h2, generateTTSSpeak_fileWrites, generateTTSSpeak_emitted, hs]
    simp [hf]
  · intro text voiceId spoken stream e ht hv hte hve hsp hs hf
    obtain ⟨h1, h2, -⟩ :=
      postTts_after_translation w msg text voiceId spoken ht hv hte hve hsp
    rw [h1, h2, postTtsSpeak_fileWrites, postTtsSpeak_responses, hs]
    simp [hf]

/-- A stream that breaks after one chunk: no file, the chunk forwarded, then the error. -/
theorem file_written_once_iff_store_reached_witness :
    (fileWrites (generateTTS brokenWorld freshSocket sampleMsg).trace = [] ∧
      emitted (generateTTS brokenWorld freshSocket sampleMsg).trace =
        numbered 0 brokenStream.chunks ++ [Event.error "TTS generation failed"]) ∧
    (fileWrites (postTts brokenWorld sampleMsg) = [] ∧
      responses (postTts brokenWorld sampleMsg) =
        [(500, Payload.error "TTS generation failed")]) :=
  ⟨(file_written_once_iff_store_reached brokenWorld freshSocket sampleMsg).2.2.1
      "hello" "v1" "hello" brokenStream "socket hang up" rfl rfl (by decide) (by decide)
      (by simp [Spoken, sampleMsg]) rfl rfl,
   (file_written_once_iff_store_reached brokenWorld freshSocket sampleMsg).2.2.2
      "hello" "v1" "hello" brokenStream "socket hang up" rfl rfl (by decide) (by decide)
      (by simp [Spoken, sampleMsg]) rfl rfl⟩

/-! ## Translation -/

/-- Every `ttsResult` that `generateTTS` emits carries the text handed to the provider. -/
theorem generateTTSSpeak_ttsResult (w : World) (sock : Socket) (voiceId text modelId : String)
    (a b c d : String)
    (h : Event.ttsResult a b c d ∈
      emitted (generateTTSSpeak w (Run.start sock) voiceId text modelId).trace) : b = text := by
  rw [generateTTSSpeak_emitted] at h
  have hnum : ∀ cs : List Buffer, Event.ttsResult a b c d ∉ numbered 0 cs := fun cs hmem => by
    have := (numbered_not_terminal 0 cs _ hmem).1
    simp [Event.isCompletion] at this
  cases hs : w.ttsStream voiceId text modelId with
  | error e => simp [hs] at h
  | ok stream =>
    obtain ⟨chunks, failure⟩ := stream
    cases failure with
    | some e => simp [hs, hnum] at h
    | none =>
      cases hw : w.writeFileSync (mp3Path w) (bufferConcat chunks) with
      | some e => simp [hs, hw, hnum] at h
      | none =>
        simp [hs, hw, hnum] at h
        exact h.2.1

/-- Every success response of `POST /tts` carries the text handed to the provider. -/
theorem postTtsSpeak_saved (w : World) (voiceId text modelId : String) (a b c : String)
    (h : (200, Payload.saved a b c) ∈ responses (postTtsSpeak w [] voiceId text modelId)) :
    b = text := by
  rw [postTtsSpeak_responses] at h
  cases hs : w.ttsStream voiceId text modelId with
  | error e => simp [hs] at h
  | ok stream =>
    obtain ⟨chunks, failure⟩ := stream
    cases failure with
    | some e => simp [hs] at h
    | none =>
      cases hw : w.writeFileSync (mp3Path w) (bufferConcat chunks) with
      | some e => simp [hs, hw] at h
      | none =>
        simp [hs, hw] at h
        exact h.2.1

/-- C7: in `index.js` (`generateTTS`, `POST /tts`), for a valid request with language `hi` the
translator is called exactly once, with the request text and target `hi`, before the provider
call; the provider text and every returned `translatedText` are the translator's output; if the
translator throws there is no provider call and the run ends in an error.  For any other
language the translator is not called and both texts are the request text. -/
theorem translator_runs_once_before_provider (w : World) (sock : Socket) (msg : Msg)
    (text voiceId : String) (ht : msg.text = some text) (hv : msg.voiceId = some voiceId)
    (hte : text ≠ "") (hve : voiceId ≠ "") :
    (msg.language.getD "en" = "hi" →
      (∀ translated : String, w.translate text "hi" = Except.ok translated →
        networkCalls (generateTTS w sock msg).trace =
          [Effect.translateCall text "hi",
            Effect.ttsCall voiceId translated (msg.modelId.getD "eleven_flash_v2_5")] ∧
        (∀ a b c d : String,
          Event.ttsResult a b c d ∈ emitted (generateTTS w sock msg).trace → b = translated) ∧
        networkCalls (postTts w msg) =
          [Effect.translateCall text "hi",
            Effect.ttsCall voiceId translated (msg.modelId.getD "eleven_multilingual_v2")] ∧
        (∀ a b c : String,
          (200, Payload.saved a b c) ∈ responses (postTts w msg) → b = translated)) ∧
      (∀ e : Err, w.translate text "hi" = Except.error e →
        networkCalls (generateTTS w sock msg).trace = [Effect.translateCall text "hi"] ∧
        emitted (generateTTS w sock msg).trace = [Event.error "TTS generation failed"] ∧
        networkCalls (postTts w msg) = [Effect.translateCall text "hi"] ∧
        responses (postTts w msg) = [(500, Payload.error "TTS generation failed")])) ∧
    (msg.language.getD "en" ≠ "hi" →
      networkCalls (generateTTS w sock msg).trace =
        [Effect.ttsCall voiceId text (msg.modelId.getD "eleven_flash_v2_5")] ∧
      (∀ a b c d : String,
        Event.ttsResult a b c d ∈ emitted (generateTTS w sock msg).trace → b = text) ∧
      networkCalls (postTts w msg) =
        [Effect.ttsCall voiceId text (msg.modelId.getD "eleven_multilingual_v2")] ∧
      (∀ a b c : String, (200, Payload.saved a b c) ∈ responses (postTts w msg) → b = text)) ∧
    (∀ (spoken : String) (stream : Upstream),
      Spoken w text (msg.language.getD "en") spoken →
      ((w.ttsStream voiceId spoken (msg.modelId.getD "eleven_flash_v2_5") = Except.ok stream →
        stream.failure = none →
        w.writeFileSync (mp3Path w) (bufferConcat stream.chunks) = none →
        emitted (generateTTS w sock msg).trace =
          numbered 0 stream.chunks ++ [Event.ttsResult "Audio saved locally" spoken (mp3Path w)
            (toBase64 (bufferConcat stream.chunks))]) ∧
       (w.ttsStream voiceId spoken (msg.modelId.getD "eleven_multilingual_v2") =
          Except.ok stream →
        stream.failure = none →
        w.writeFileSync (mp3Path w) (bufferConcat stream.chunks) = none →
        responses (postTts w msg) =
          [(200, Payload.saved "Audio saved locally" spoken (mp3Path w))]))) := by
  refine ⟨fun hl => ⟨fun translated htr => ?_, fun e htr => ?_⟩, fun hl => ?_,
    fun spoken stream hsp => ⟨fun hs hf hw => ?_, fun hs hf hw => ?_⟩⟩
  · have hsp : Spoken w text (msg.language.getD "en") translated := by simp [Spoken, hl, htr]
    obtain ⟨-, h2, h3⟩ :=
      generateTTS_after_translation w sock msg text voiceId translated ht hv hte hve hsp
    obtain ⟨-, p2, p3⟩ := postTts_after_translation w msg text voiceId translated ht hv hte hve hsp
    refine ⟨by simp [h3, hl], fun a b c d h => ?_, by simp [p3, hl], fun a b c h => ?_⟩
    · rw [h2] at h
      exact generateTTSSpeak_ttsResult w sock voiceId translated _ a b c d h
    · rw [p2] at h
      exact postTtsSpeak_saved w voiceId translated _ a b c h
  · rw [generateTTS_translation_failed w sock msg text voiceId e ht hv hte hve hl htr,
      postTts_translation_failed w msg text voiceId e ht hv hte hve hl htr]
    simp
  · have hsp : Spoken w text (msg.language.getD "en") text := by simp [Spoken, hl]
    obtain ⟨-, h2, h3⟩ :=
      generateTTS_after_translation w sock msg text voiceId text ht hv hte hve hsp
    obtain ⟨-, p2, p3⟩ := postTts_after_translation w msg text voiceId text ht hv hte hve hsp
    refine ⟨by simp [h3, hl], fun a b c d h => ?_, by simp [p3, hl], fun a b c h => ?_⟩
    · rw [h2] at h
      exact generateTTSSpeak_ttsResult w sock voiceId text _ a b c d h
    · rw [p2] at h
      exact postTtsSpeak_saved w voiceId text _ a b c h
  · obtain ⟨-, h2, -⟩ :=
      generateTTS_after_translation w sock msg text voiceId spoken ht hv hte hve hsp
    rw [h2, generateTTSSpeak_emitted, hs]
    simp [hf, hw]
  · obtain ⟨-, p2, -⟩ := postTts_after_translation w msg text voiceId spoken ht hv hte hve hsp
    rw [p2, postTtsSpeak_responses, hs]
    simp [hf, hw]

/-- A Hindi request with a working translator: the translator runs once, first, and its output
`hi:hello` is the provider text and the returned `translatedText`. -/
theorem translator_runs_once_before_provider_witness :
    networkCalls (generateTTS sampleWorld freshSocket hindiMsg).trace =
      [Effect.translateCall "hello" "hi", Effect.ttsCall "v1" "hi:hello" "eleven_flash_v2_5"] ∧
    emitted (generateTTS sampleWorld freshSocket hindiMsg).trace =
      numbered 0 sampleStream.chunks ++
        [Event.ttsResult "Audio saved locally" "hi:hello" (mp3Path sampleWorld)
          (toBase64 (bufferConcat sampleStream.chunks))] ∧
    networkCalls (generateTTS noTranslatorWorld freshSocket hindiMsg).trace =
      [Effect.translateCall "hello" "hi"] :=
  ⟨((translator_runs_once_before_provider sampleWorld freshSocket hindiMsg "hello" "v1" rfl rfl
      (by decide) (by decide)).1 rfl).1 "hi:hello" rfl |>.1,
   ((translator_runs_once_before_provider sampleWorld freshSocket hindiMsg "hello" "v1" rfl rfl
      (by decide) (by decide)).2.2 "hi:hello" sampleStream
      (by simp [Spoken, hindiMsg, sampleWorld])).1 rfl rfl rfl,
   (((translator_runs_once_before_provider noTranslatorWorld freshSocket hindiMsg "hello" "v1"
      rfl rfl (by decide) (by decide)).1 rfl).2 "Too Many Requests" rfl).1⟩

/-! ## Validation -/

theorem jsLength_replicate (n : Nat) : jsLength (String.mk (List.replicate n 'a')) = n := by
  have h : utf16Units 'a' = 1 := by decide
  simp [jsLength, List.map_replicate, List.sum_replicate, h]

theorem replicate_ne_empty (n : Nat) (h : 0 < n) : String.mk (List.replicate n 'a') ≠ "" := by
  intro he
  have := congrArg jsLength he
  rw [jsLength_replicate] at this
  have h0 : jsLength "" = 0 := by decide
  omega

/-- The trace of `textChunk` for a text over the cap. -/
theorem textChunk_trace_too_long (w : World) (sock : Socket) (msg : Msg) (text voiceId : String)
    (ht : msg.text = some text) (hv : msg.voiceId = some voiceId)
    (hte : text ≠ "") (hve : voiceId ≠ "") (hlen : jsLength text > 2000) :
    (textChunk w sock msg).trace = [Effect.emit (Event.error "chunk too long")] := by
  unfold textChunk
  simp [ht, hv, hte, hve, hlen]

/-- The text of 2001 code units passes through `generateTTS` of `index.js` to the provider:
the upstream call is made and the chunks are forwarded, against C5 as stated. -/
theorem generateTTS_accepts_long_text :
    jsLength longText > 2000 ∧
    networkCalls (generateTTS sampleWorld freshSocket longMsg).trace =
      [Effect.ttsCall "v1" longText "eleven_flash_v2_5"] ∧
    audioChunks (emitted (generateTTS sampleWorld freshSocket longMsg).trace) =
      numbered 0 sampleStream.chunks ∧
    ¬ (networkCalls (generateTTS sampleWorld freshSocket longMsg).trace = [] ∧
        audioChunks (emitted (generateTTS sampleWorld freshSocket longMsg).trace) = []) := by
  have hlen : jsLength longText = 2001 := jsLength_replicate 2001
  have hne : longText ≠ "" := replicate_ne_empty 2001 (by omega)
  have hsp : Spoken sampleWorld longText (longMsg.language.getD "en") longText := by
    simp [Spoken, longMsg]
  obtain ⟨-, h2, h3⟩ := generateTTS_after_translation sampleWorld freshSocket longMsg longText
    "v1" longText rfl rfl hne (by decide) hsp
  have h4 : networkCalls (generateTTS sampleWorld freshSocket longMsg).trace =
      [Effect.ttsCall "v1" longText "eleven_flash_v2_5"] := by
    rw [h3]; simp [longMsg]
  have h5 : audioChunks (emitted (generateTTS sampleWorld freshSocket longMsg).trace) =
      numbered 0 sampleStream.chunks := by
    rw [h2]
    exact generateTTSSpeak_audioChunks sampleWorld _ "v1" longText _ sampleStream (by simp) rfl
  refine ⟨by omega, h4, h5, fun h => ?_⟩
  rw [h4] at h
  simp at h

/-- C5 (amended): for a message with text and voiceId present, `textChunk` of `server.js`
answers a text of more than 2000 code units with the single event `error "chunk too long"`, with
no upstream call and no `audioChunk`; a text of at most 2000 code units passes the cap and
reaches the provider; `generateTTS` of `index.js` has no cap and reaches the translator or the
provider for a text of every length. -/
theorem length_cap_in_textChunk_only (w : World) (sock : Socket) (msg : Msg)
    (text voiceId : String) (ht : msg.text = some text) (hv : msg.voiceId = some voiceId)
    (hte : text ≠ "") (hve : voiceId ≠ "") :
    (jsLength text > 2000 →
      (textChunk w sock msg).trace = [Effect.emit (Event.error "chunk too long")] ∧
      networkCalls (textChunk w sock msg).trace = [] ∧
      audioChunks (emitted (textChunk w sock msg).trace) = []) ∧
    (jsLength text ≤ 2000 →
      networkCalls (textChunk w sock msg).trace =
        [Effect.ttsCall voiceId text (msg.modelId.getD "eleven_multilingual_v2")]) ∧
    networkCalls (generateTTS w sock msg).trace ≠ [] := by
  refine ⟨fun hlen => ?_, fun hlen => ?_, ?_⟩
  · rw [textChunk_trace_too_long w sock msg text voiceId ht hv hte hve hlen]
    exact ⟨rfl, rfl, rfl⟩
  · rw [textChunk_trace_valid w sock msg text voiceId ht hv hte hve hlen]
    cases hs : w.ttsStream voiceId text (msg.modelId.getD "eleven_multilingual_v2") with
    | error e => simp [failTail]
    | ok stream =>
      obtain ⟨chunks, failure⟩ := stream
      cases failure with
      | some e => simp [failTail]
      | none => simp
  · rcases Spoken.total w text (msg.language.getD "en") with ⟨spoken, hsp⟩ | ⟨hl, e, htr⟩
    · rw [(generateTTS_after_translation w sock msg text voiceId spoken ht hv hte hve hsp).2.2]
      simp
    · rw [generateTTS_translation_failed w sock msg text voiceId e ht hv hte hve hl htr]
      simp

/-- The cap of `textChunk` at 2001 and at 2000 code units. -/
theorem length_cap_in_textChunk_only_witness :
    ((textChunk sampleWorld freshSocket longMsg).trace =
        [Effect.emit (Event.error "chunk too long")] ∧
      networkCalls (textChunk sampleWorld freshSocket longMsg).trace = [] ∧
      audioChunks (emitted (textChunk sampleWorld freshSocket longMsg).trace) = []) ∧
    networkCalls (textChunk sampleWorld freshSocket capMsg).trace =
      [Effect.ttsCall "v1" capText "eleven_multilingual_v2"] :=
  ⟨(length_cap_in_textChunk_only sampleWorld freshSocket longMsg longText "v1" rfl rfl
      (replicate_ne_empty 2001 (by omega)) (by decide)).1
      (by rw [longText, jsLength_replicate]; omega),
   (length_cap_in_textChunk_only sampleWorld freshSocket capMsg capText "v1" rfl rfl
      (replicate_ne_empty 2000 (by omega)) (by decide)).2.1
      (by rw [capText, jsLength_replicate])⟩

/-- The download and write steps of `test.js`, written out after the trace they are given. -/
theorem topDownload_trace (w : TopWorld) (t : Trace) (audioUrl : String) :
    topDownload w t audioUrl = t ++ topDownload w [] audioUrl := by
  unfold topDownload
  cases hd : w.download audioUrl with
  | error e => simp [topFail]
  | ok data =>
    simp only
    cases hw : w.writeFileSync (wavPath w.now) data with
    | some e => simp [topFail]
    | none =>
      simp only
      cases hr : w.readFileSync (wavPath w.now) with
      | error e => simp [topFail]
      | ok fileBuffer => simp

/-- The store step of `test.js` only adds to the trace it is given. -/
theorem topStore_trace (w : TopWorld) (t : Trace) (audioUrl : String) :
    topStore w t audioUrl = t ++ topStore w [] audioUrl := by
  unfold topStore
  by_cases hex : w.existsSync (pathJoin "public" "tts_audios") = true
  · simp only [hex, if_true]
    rw [topDownload_trace w (t ++ _), topDownload_trace w ([] ++ _)]
    simp
  · simp only [hex]
    cases hm : w.mkdirSync (pathJoin "public" "tts_audios") with
    | some e => simp [topFail]
    | none =>
      simp only [Bool.false_eq_true, if_false]
      rw [topDownload_trace w (t ++ _ ++ _), topDownload_trace w ([] ++ _ ++ _)]
      simp

/-- The handler of `POST /tts` in `test.js` starts with the upstream request, whatever the body. -/
theorem topTts_starts_with_fetch (w : TopWorld) (body : SpeakerMsg) :
    ∃ rest : Trace, topTts w body = topFetch w body :: rest := by
  unfold topTts topFetch
  cases hf : w.fetchTts (ttsBody body.text body.speaker) with
  | error e =>
    simp only [hf, topFail, List.singleton_append]
    exact ⟨_, rfl⟩
  | ok data =>
    obtain ⟨ossUrl, shown⟩ := data
    cases ossUrl with
    | none =>
      simp only [hf, List.singleton_append, List.cons_append, List.nil_append]
      exact ⟨_, rfl⟩
    | some url =>
      by_cases hu : url = ""
      · simp only [hf, hu, if_true, List.singleton_append, List.cons_append, List.nil_append]
        exact ⟨_, rfl⟩
      · simp only [hf, hu, if_false]
        rw [topStore_trace]
        exact ⟨_, rfl⟩

/-- A body without `speaker` sent to `POST /tts` of `test.js`: no check stops it, the upstream
request and the download are made and the client gets status 200, against C6 as stated. -/
theorem topTts_accepts_missing_speaker :
    noSpeakerMsg.speaker = none ∧
    networkCalls (onTopTts sampleTopWorld (some noSpeakerMsg)) =
      [topFetch sampleTopWorld noSpeakerMsg, Effect.downloadCall "https://oss.example/a.wav"] ∧
    (responses (onTopTts sampleTopWorld (some noSpeakerMsg))).map Prod.fst = [200] := by
  refine ⟨rfl, ?_, ?_⟩
  · simp [onTopTts, topTts, topStore, topDownload, sampleTopWorld, noSpeakerMsg, topFetch,
      networkCalls, Effect.isNetworkCall]
  · simp [onTopTts, topTts, topStore, topDownload, sampleTopWorld, noSpeakerMsg, responses]

/-- C6 (amended): a request without text or voice identifier (a field absent or empty, or no
payload at all) is rejected by `POST /tts` and `generateTTS` of `index.js` and by `textChunk`
of `server.js` with an error and without any network call: the socket handlers emit exactly
one `error` event, `POST /tts` sends exactly one HTTP error response, with status 400 whenever
the request body is an object.  `POST /tts` of `test.js` checks nothing: whenever the request
body is an object, its first action is the upstream request. -/
theorem missing_field_rejected_where_validated (w : World) (tw : TopWorld) (sock : Socket)
    (payload : Option Msg) (body : SpeakerMsg) (h : Missing payload) :
    (networkCalls (onPostTts w payload) = [] ∧
      ∃ (status : Nat) (text : String),
        responses (onPostTts w payload) = [(status, Payload.error text)] ∧
        (status = 400 ∨ status = 500) ∧ (payload.isSome = true → status = 400)) ∧
    (networkCalls (onGenerateTTS w sock payload).trace = [] ∧
      ∃ text : String, emitted (onGenerateTTS w sock payload).trace = [Event.error text]) ∧
    (networkCalls (onTextChunk w sock payload).trace = [] ∧
      ∃ text : String, emitted (onTextChunk w sock payload).trace = [Event.error text]) ∧
    ∃ rest : Trace, onTopTts tw (some body) = topFetch tw body :: rest := by
  refine ⟨?_, ?_, ?_, topTts_starts_with_fetch tw body⟩
  · cases payload with
    | none =>
      exact ⟨rfl, 500, "TTS generation failed", rfl, Or.inr rfl, by simp⟩
    | some msg =>
      simp only [onPostTts, postTts_trace_invalid w msg h]
      exact ⟨rfl, 400, "text and voiceId required", rfl, Or.inl rfl, fun _ => rfl⟩
  · cases payload with
    | none => exact ⟨rfl, "TTS generation failed", rfl⟩
    | some msg =>
      simp only [onGenerateTTS, generateTTS_trace_invalid w sock msg h]
      exact ⟨rfl, "text and voiceId required", rfl⟩
  · cases payload with
    | none => exact ⟨rfl, "TTS generation failed", rfl⟩
    | some msg =>
      simp only [onTextChunk, textChunk_trace_invalid w sock msg h]
      exact ⟨rfl, "text and voiceId required", rfl⟩

/-- A message without `voiceId` at the three validating entry points, and a body without
`speaker` at `test.js`. -/
theorem missing_field_rejected_where_validated_witness :
    (networkCalls (onPostTts sampleWorld (some noVoiceMsg)) = [] ∧
      ∃ (status : Nat) (text : String),
        responses (onPostTts sampleWorld (some noVoiceMsg)) = [(status, Payload.error text)] ∧
        (status = 400 ∨ status = 500) ∧ ((some noVoiceMsg).isSome = true → status = 400)) ∧
    (networkCalls (onGenerateTTS sampleWorld freshSocket (some noVoiceMsg)).trace = [] ∧
      ∃ text : String,
        emitted (onGenerateTTS sampleWorld freshSocket (some noVoiceMsg)).trace =
          [Event.error text]) ∧
    (networkCalls (onTextChunk sampleWorld freshSocket (some noVoiceMsg)).trace = [] ∧
      ∃ text : String,
        emitted (onTextChunk sampleWorld freshSocket (some noVoiceMsg)).trace =
          [Event.error text]) ∧
    ∃ rest : Trace, onTopTts sampleTopWorld (some noSpeakerMsg) =
      topFetch sampleTopWorld noSpeakerMsg :: rest :=
  missing_field_rejected_where_validated sampleWorld sampleTopWorld freshSocket
    (some noVoiceMsg) noSpeakerMsg (Or.inr (Or.inr (Or.inl rfl)))

/-- A request with no payload at the four entry points: the destructuring throws, the catch
block answers with the generic failure, and no network call is made. -/
theorem no_payload_answers :
    responses (onPostTts sampleWorld none) = [(500, Payload.error "TTS generation failed")] ∧
    emitted (onGenerateTTS sampleWorld freshSocket none).trace =
      [Event.error "TTS generation failed"] ∧
    emitted (onTextChunk sampleWorld freshSocket none).trace =
      [Event.error "TTS generation failed"] ∧
    responses (onTopTts sampleTopWorld none) = [(500, Payload.error "Server error")] ∧
    networkCalls (onTopTts sampleTopWorld none) = [] := by
  refine ⟨rfl, rfl, rfl, rfl, rfl⟩

/-! ## Failures of the collaborators -/

/-- C8 (the failing case): when the voice list request of `GET /voices` in `test.js` fails, the
handler logs the error and sends no response at all, while `GET /voices` of `index.js` and
`server.js` answers the same failure with status 500 and a fixed text. -/
theorem topVoices_sends_nothing_on_failure (tw : TopWorld) (w : World) (e : Err)
    (htw : tw.fetchVoices = Except.error e) (hw : w.voices = Except.error e) :
    responses (topVoices tw) = [] ∧
    topVoices tw =
      [Effect.fetchCall "https://api.topmediai.com/v1/voices_list" "GET"
        [("x-api-key", tw.apiKey)] none, Effect.log [LogItem.thrown e]] ∧
    responses (getVoices w) = [(500, Payload.error "Failed to fetch voices")] := by
  unfold topVoices getVoices
  rw [htw, hw]
  simp [responses, restFail]

/-- The voice list request refused: `test.js` leaves the client without a response. -/
theorem topVoices_sends_nothing_on_failure_witness :
    responses (topVoices offlineTopWorld) = [] ∧
    topVoices offlineTopWorld =
      [Effect.fetchCall "https://api.topmediai.com/v1/voices_list" "GET"
        [("x-api-key", offlineTopWorld.apiKey)] none,
        Effect.log [LogItem.thrown "ECONNREFUSED"]] ∧
    responses (getVoices offlineWorld) = [(500, Payload.error "Failed to fetch voices")] :=
  topVoices_sends_nothing_on_failure offlineTopWorld offlineWorld "ECONNREFUSED" rfl rfl

/-! ## File names -/

theorem digitChar_value (n : Nat) (h : n < 10) : (Nat.digitChar n).toNat - 48 = n := by
  interval_cases n <;> rfl

theorem decimalValue_snoc (cs : List Char) (c : Char) :
    decimalValue (cs ++ [c]) = decimalValue cs * 10 + (c.toNat - 48) := by
  simp [decimalValue, List.foldl_append]

theorem decimalValue_digits (fuel n : Nat) (h : n < 10 ^ fuel) :
    decimalValue (decimalDigits fuel n) = n := by
  induction fuel generalizing n with
  | zero =>
    have : n = 0 := by simpa using h
    subst this
    rfl
  | succ fuel ih =>
    unfold decimalDigits
    by_cases hn : n < 10
    · simp only [hn, if_true]
      simpa [decimalValue] using digitChar_value n hn
    · simp only [hn, if_false]
      have hdiv : n / 10 < 10 ^ fuel := by
        apply Nat.div_lt_of_lt_mul
        rw [Nat.pow_succ, Nat.mul_comm] at h
        exact h
      rw [decimalValue_snoc, ih (n / 10) hdiv, digitChar_value (n % 10) (Nat.mod_lt _ (by omega))]
      omega

theorem numberToString_injective (a b : Nat) (h : numberToString a = numberToString b) :
    a = b := by
  have ha := decimalValue_digits (a + 1) a
    (Nat.lt_of_lt_of_le (Nat.lt_pow_self (by omega) a) (Nat.pow_le_pow_right (by omega) (by omega)))
  have hb := decimalValue_digits (b + 1) b
    (Nat.lt_of_lt_of_le (Nat.lt_pow_self (by omega) b) (Nat.pow_le_pow_right (by omega) (by omega)))
  have hl : decimalDigits (a + 1) a = decimalDigits (b + 1) b := congrArg String.data h
  rw [← ha, ← hb, hl]

theorem audio_name_injective (dir ext : String) (a b : Nat)
    (h : pathJoin dir ("audio_" ++ numberToString a ++ ext) =
      pathJoin dir ("audio_" ++ numberToString b ++ ext)) : a = b := by
  apply numberToString_injective
  have hd := congrArg String.data h
  simp only [pathJoin, String.data_append, List.append_assoc, List.append_cancel_left_eq,
    List.append_cancel_right_eq] at hd
  exact String.ext hd

theorem mp3Path_eq_iff (w1 w2 : World) (hdir : w1.audioDir = w2.audioDir) :
    mp3Path w1 = mp3Path w2 ↔ w1.now = w2.now := by
  constructor
  · intro h
    unfold mp3Path at h
    rw [hdir] at h
    exact audio_name_injective _ _ _ _ h
  · intro h
    unfold mp3Path
    rw [hdir, h]

theorem wavPath_eq_iff (a b : Nat) : wavPath a = wavPath b ↔ a = b := by
  constructor
  · intro h
    exact audio_name_injective _ _ _ _ h
  · intro h
    rw [h]

/-- Every file write of `generateTTS` goes to the path built from the clock reading. -/
theorem generateTTS_fileWrites_path (w : World) (sock : Socket) (msg : Msg) :
    ∀ pd ∈ fileWrites (generateTTS w sock msg).trace, pd.1 = mp3Path w := by
  rcases Msg.valid_or_invalid msg with hinv | ⟨text, voiceId, ht, hv, hte, hve⟩
  · simp [generateTTS_trace_invalid w sock msg hinv]
  · rcases Spoken.total w text (msg.language.getD "en") with ⟨spoken, hsp⟩ | ⟨hl, e, htr⟩
    · rw [(generateTTS_after_translation w sock msg text voiceId spoken ht hv hte hve hsp).1]
      rcases generateTTSSpeak_store_or_not w sock voiceId spoken
        (msg.modelId.getD "eleven_flash_v2_5") with ⟨stream, -, -, hfw⟩ | ⟨-, hfw, -⟩
      · simp [hfw]
      · simp [hfw]
    · simp [generateTTS_translation_failed w sock msg text voiceId e ht hv hte hve hl htr]

/-- Every file write of `POST /tts` in `index.js` goes to the path built from the clock reading. -/
theorem postTts_fileWrites_path (w : World) (body : Msg) :
    ∀ pd ∈ fileWrites (postTts w body), pd.1 = mp3Path w := by
  rcases Msg.valid_or_invalid body with hinv | ⟨text, voiceId, ht, hv, hte, hve⟩
  · simp [postTts_trace_invalid w body hinv]
  · rcases Spoken.total w text (body.language.getD "en") with ⟨spoken, hsp⟩ | ⟨hl, e, htr⟩
    · rw [(postTts_after_translation w body text voiceId spoken ht hv hte hve hsp).1]
      rcases postTtsSpeak_store_or_not w voiceId spoken
        (body.modelId.getD "eleven_multilingual_v2") with ⟨stream, -, -, hfw⟩ | ⟨-, hfw, -⟩
      · simp [hfw]
      · simp [hfw]
    · simp [postTts_translation_failed w body text voiceId e ht hv hte hve hl htr]

/-- Every file write of the download step of `test.js` goes to the path built from the clock. -/
theorem topDownload_fileWrites_path (w : TopWorld) (audioUrl : String) :
    ∀ pd ∈ fileWrites (topDownload w [] audioUrl), pd.1 = wavPath w.now := by
  unfold topDownload
  cases hd : w.download audioUrl with
  | error e => simp [topFail, fileWrites]
  | ok data =>
    simp only
    cases hw : w.writeFileSync (wavPath w.now) data with
    | some e => simp [topFail, fileWrites]
    | none =>
      simp only
      cases hr : w.readFileSync (wavPath w.now) with
      | error e => simp [topFail, fileWrites]
      | ok fileBuffer => simp [fileWrites]

/-- Every file write of `POST /tts` in `test.js` goes to the path built from the clock reading. -/
theorem topTts_fileWrites_path (w : TopWorld) (body : SpeakerMsg) :
    ∀ pd ∈ fileWrites (topTts w body), pd.1 = wavPath w.now := by
  unfold topTts
  cases hf : w.fetchTts (ttsBody body.text body.speaker) with
  | error e => simp [hf, topFail, fileWrites]
  | ok data =>
    obtain ⟨ossUrl, shown⟩ := data
    cases ossUrl with
    | none => simp [hf, fileWrites]
    | some url =>
      by_cases hu : url = ""
      · simp [hf, hu, fileWrites]
      · simp only [hf, hu, if_false]
        rw [topStore_trace]
        unfold topStore
        by_cases hex : w.existsSync (pathJoin "public" "tts_audios") = true
        · simp only [hex, if_true]
          rw [topDownload_trace]
          intro pd hpd
          simp only [fileWrites_append, List.mem_append] at hpd
          rcases hpd with hpd | hpd | hpd
          · simp [fileWrites] at hpd
          · simp [fileWrites] at hpd
          · exact topDownload_fileWrites_path w url pd hpd
        · simp only [hex]
          cases hm : w.mkdirSync (pathJoin "public" "tts_audios") with
          | some e => simp [topFail, fileWrites]
          | none =>
            simp only [Bool.false_eq_true, if_false]
            rw [topDownload_trace]
            intro pd hpd
            simp only [fileWrites_append, List.mem_append] at hpd
            rcases hpd with hpd | hpd | hpd
            · simp [fileWrites] at hpd
            · simp [fileWrites] at hpd
            · exact topDownload_fileWrites_path w url pd hpd

/-- Two sessions of `index.js` that read the same millisecond: both reach the store and write
to the same path, with different content, against C9 as stated. -/
theorem same_clock_reading_same_path :
    sampleWorld.now = fiveWorld.now ∧
    fileWrites (generateTTS sampleWorld freshSocket sampleMsg).trace =
      [("/srv/audio_files/audio_1700000000000.mp3", [1, 2, 3, 4, 5])] ∧
    fileWrites (generateTTS fiveWorld freshSocket sampleMsg).trace =
      [("/srv/audio_files/audio_1700000000000.mp3", [1, 2, 3, 4, 5, 6, 7, 8])] := by
  have hsp : Spoken sampleWorld "hello" (sampleMsg.language.getD "en") "hello" := by
    simp [Spoken, sampleMsg]
  have hsp5 : Spoken fiveWorld "hello" (sampleMsg.language.getD "en") "hello" := by
    simp [Spoken, sampleMsg]
  have hpath : mp3Path sampleWorld = "/srv/audio_files/audio_1700000000000.mp3" := by decide
  have hpath5 : mp3Path fiveWorld = "/srv/audio_files/audio_1700000000000.mp3" := by decide
  refine ⟨rfl, ?_, ?_⟩
  · rw [generateTTS_fileWrites_ready sampleWorld freshSocket sampleMsg "hello" sampleStream
      ⟨"hello", "v1", rfl, rfl, by decide, by decide, hsp, rfl, rfl⟩, hpath]
    rfl
  · rw [generateTTS_fileWrites_ready fiveWorld freshSocket sampleMsg "hello" fiveChunks
      ⟨"hello", "v1", rfl, rfl, by decide, by decide, hsp5, rfl, rfl⟩, hpath5]
    rfl

/-- C9 (amended): two sessions of the same server that reach storage write to the same path
exactly when they read the same `Date.now()` value: different millisecond readings give
different file names `audio_<Date.now()>.<ext>`, equal readings give the same one. -/
theorem paths_differ_iff_clock_readings_differ (w1 w2 : World) (s1 s2 : Socket) (m1 m2 : Msg)
    (tw1 tw2 : TopWorld) (b1 b2 : SpeakerMsg) (hdir : w1.audioDir = w2.audioDir) :
    (∀ pd1 pd2 : String × Buffer,
      pd1 ∈ fileWrites (generateTTS w1 s1 m1).trace ++ fileWrites (postTts w1 m1) →
      pd2 ∈ fileWrites (generateTTS w2 s2 m2).trace ++ fileWrites (postTts w2 m2) →
      (pd1.1 = pd2.1 ↔ w1.now = w2.now)) ∧
    (∀ pd1 pd2 : String × Buffer,
      pd1 ∈ fileWrites (topTts tw1 b1) → pd2 ∈ fileWrites (topTts tw2 b2) →
      (pd1.1 = pd2.1 ↔ tw1.now = tw2.now)) := by
  constructor
  · intro pd1 pd2 h1 h2
    have e1 : pd1.1 = mp3Path w1 := by
      rcases List.mem_append.mp h1 with h | h
      · exact generateTTS_fileWrites_path w1 s1 m1 pd1 h
      · exact postTts_fileWrites_path w1 m1 pd1 h
    have e2 : pd2.1 = mp3Path w2 := by
      rcases List.mem_append.mp h2 with h | h
      · exact generateTTS_fileWrites_path w2 s2 m2 pd2 h
      · exact postTts_fileWrites_path w2 m2 pd2 h
    rw [e1, e2]
    exact mp3Path_eq_iff w1 w2 hdir
  · intro pd1 pd2 h1 h2
    rw [topTts_fileWrites_path tw1 b1 pd1 h1, topTts_fileWrites_path tw2 b2 pd2 h2]
    exact wavPath_eq_iff tw1.now tw2.now

theorem sample_generateTTS_write (w : World) (hs : w.ttsStream = sampleWorld.ttsStream) :
    (mp3Path w, bufferConcat sampleStream.chunks) ∈
      fileWrites (generateTTS w freshSocket sampleMsg).trace ++ fileWrites (postTts w sampleMsg) := by
  apply List.mem_append_left
  rw [generateTTS_fileWrites_ready w freshSocket sampleMsg "hello" sampleStream
    ⟨"hello", "v1", rfl, rfl, by decide, by decide, by simp [Spoken, sampleMsg],
      by rw [hs]; rfl, rfl⟩]
  exact List.mem_singleton.mpr rfl

theorem sample_topTts_write (w : TopWorld) (h : w = sampleTopWorld ∨ w = laterTopWorld) :
    (wavPath w.now, ([82, 73, 70, 70] : Buffer)) ∈ fileWrites (topTts w speakerMsg) := by
  rcases h with rfl | rfl
  · simp [topTts, topStore, topDownload, sampleTopWorld, speakerMsg, fileWrites]
  · simp [topTts, topStore, topDownload, sampleTopWorld, laterTopWorld, speakerMsg, fileWrites]

/-- Two sessions one millisecond apart, in `index.js` and in `test.js`. -/
theorem paths_differ_iff_clock_readings_differ_witness :
    (mp3Path sampleWorld = mp3Path laterWorld ↔ sampleWorld.now = laterWorld.now) ∧
    (wavPath sampleTopWorld.now = wavPath laterTopWorld.now ↔
      sampleTopWorld.now = laterTopWorld.now) :=
  ⟨(paths_differ_iff_clock_readings_differ sampleWorld laterWorld freshSocket freshSocket
      sampleMsg sampleMsg sampleTopWorld laterTopWorld speakerMsg speakerMsg rfl).1
      (mp3Path sampleWorld, bufferConcat sampleStream.chunks)
      (mp3Path laterWorld, bufferConcat sampleStream.chunks)
      (sample_generateTTS_write sampleWorld rfl) (sample_generateTTS_write laterWorld rfl),
   (paths_differ_iff_clock_readings_differ sampleWorld laterWorld freshSocket freshSocket
      sampleMsg sampleMsg sampleTopWorld laterTopWorld speakerMsg speakerMsg rfl).2
      (wavPath sampleTopWorld.now, [82, 73, 70, 70])
      (wavPath laterTopWorld.now, [82, 73, 70, 70])
      (sample_topTts_write sampleTopWorld (Or.inl rfl))
      (sample_topTts_write laterTopWorld (Or.inr rfl))⟩

/-! ## The request body of `test.js` -/

theorem jsonEscape_clean (u : Nat) (h1 : u ≠ 34) (h2 : u ≠ 92) (h3 : 32 ≤ u)
    (h4 : isHighSurrogate u = false) (h5 : isLowSurrogate u = false) : jsonEscape u = [u] := by
  unfold jsonEscape
  have e8 : u ≠ 8 := by omega
  have e12 : u ≠ 12 := by omega
  have e10 : u ≠ 10 := by omega
  have e13 : u ≠ 13 := by omega
  have e9 : u ≠ 9 := by omega
  have e32 : ¬ u < 32 := by omega
  simp [h1, h2, e8, e12, e10, e13, e9, e32, h4, h5]

/-- The serialiser copies a string without lone surrogate, quote, backslash and control
character as it is. -/
theorem jsonEscapeAll_clean (s : JsString) (hw : wellFormed s = true) (hc : Clean s) :
    jsonEscapeAll s = s := by
  induction s using jsonEscapeAll.induct with
  | case1 => rfl
  | case2 u =>
    obtain ⟨h1, h2, h3⟩ := hc u (List.mem_singleton.mpr rfl)
    simp only [wellFormed, Bool.and_eq_true, Bool.not_eq_true'] at hw
    simp only [jsonEscapeAll]
    exact jsonEscape_clean u h1 h2 h3 hw.1 hw.2
  | case3 u v rest hpair ih =>
    simp only [Bool.and_eq_true] at hpair
    simp only [wellFormed, hpair.1, if_true, Bool.and_eq_true] at hw
    simp only [jsonEscapeAll, hpair.1, hpair.2, Bool.and_self, if_true]
    rw [ih hw.2 fun x hx => hc x (List.mem_cons_of_mem u (List.mem_cons_of_mem v hx))]
  | case4 u v rest hpair ih =>
    obtain ⟨h1, h2, h3⟩ := hc u (List.mem_cons_self u _)
    have hu : isHighSurrogate u = false := by
      cases hh : isHighSurrogate u with
      | false => rfl
      | true =>
        simp only [wellFormed, hh, if_true, Bool.and_eq_true] at hw
        simp [hh, hw.1] at hpair
    simp only [wellFormed, hu, Bool.false_eq_true, if_false, Bool.and_eq_true,
      Bool.not_eq_true'] at hw
    simp only [jsonEscapeAll, hu, Bool.false_and, Bool.false_eq_true, if_false]
    rw [jsonEscape_clean u h1 h2 h3 hu hw.1,
      ih hw.2 fun x hx => hc x (List.mem_cons_of_mem u hx)]
    rfl

theorem jsonQuote_clean (s : JsString) (hw : wellFormed s = true) (hc : Clean s) :
    jsonQuote s = 34 :: s ++ [34] := by
  unfold jsonQuote
  rw [jsonEscapeAll_clean s hw hc]

/-- Inside a string literal without quote or backslash nothing is dropped up to the closing
quote. -/
theorem dropInsignificant_literal (us rest : JsString) (h : Clean us) :
    dropInsignificant Scan.inside (us ++ 34 :: rest) =
      us ++ 34 :: dropInsignificant Scan.outside rest := by
  induction us with
  | nil => simp [dropInsignificant]
  | cons u us ih =>
    obtain ⟨h1, h2, -⟩ := h u (List.mem_cons_self u us)
    simp only [List.cons_append, dropInsignificant, h1, h2, if_false]
    exact congrArg (List.cons u) (ih fun d hd => h d (List.mem_cons_of_mem u hd))

theorem dropInsignificant_text_open (rest : JsString) :
    dropInsignificant Scan.outside (js "\x7b\"text\": \"" ++ rest) =
      js "\x7b\"text\":\"" ++ dropInsignificant Scan.inside rest := rfl

theorem dropInsignificant_text_tight (rest : JsString) :
    dropInsignificant Scan.outside (js "\x7b\"text\":\"" ++ rest) =
      js "\x7b\"text\":\"" ++ dropInsignificant Scan.inside rest := rfl

theorem dropInsignificant_speaker_open (rest : JsString) :
    dropInsignificant Scan.outside (js ",\"speaker\":\"" ++ rest) =
      js ",\"speaker\":\"" ++ dropInsignificant Scan.inside rest := rfl

theorem dropInsignificant_emotion :
    dropInsignificant Scan.outside (js ",\"emotion\":\"Neutral\"\x7d") =
      js ",\"emotion\":\"Neutral\"\x7d" := by decide

/-- The template body for given text and speaker, piece by piece. -/
theorem ttsBody_pieces (t s : JsString) :
    ttsBody (some t) (some s) =
      js "\x7b\"text\": \"" ++ (t ++ 34 :: (js ",\"speaker\":\"" ++
        (s ++ 34 :: js ",\"emotion\":\"Neutral\"\x7d"))) := by
  have h1 : js "\",\"speaker\":\"" = 34 :: js ",\"speaker\":\"" := by decide
  have h2 : js "\",\"emotion\":\"Neutral\"\x7d" = 34 :: js ",\"emotion\":\"Neutral\"\x7d" := by
    decide
  simp [ttsBody, interpolate, h1, h2]

/-- The structured serialisation for clean text and speaker, piece by piece. -/
theorem jsonStringifyBody_clean (t s : JsString) (hwt : wellFormed t = true)
    (hws : wellFormed s = true) (ht : Clean t) (hs : Clean s) :
    jsonStringifyBody (some t) (some s) =
      js "\x7b\"text\":\"" ++ (t ++ 34 :: (js ",\"speaker\":\"" ++
        (s ++ 34 :: js ",\"emotion\":\"Neutral\"\x7d"))) := by
  have hk1 : jsonQuote (js "text") = js "\"text\"" := by decide
  have hk2 : jsonQuote (js "speaker") = js "\"speaker\"" := by decide
  have hk3 : jsonQuote (js "emotion") = js "\"emotion\"" := by decide
  have hk4 : jsonQuote (js "Neutral") = js "\"Neutral\"" := by decide
  have e1 : js "\x7b\"text\":\"" = 123 :: (js "\"text\"" ++ [58, 34]) := by decide
  have e2 : js ",\"speaker\":\"" = 44 :: (js "\"speaker\"" ++ [58, 34]) := by decide
  have e3 : js ",\"emotion\":\"Neutral\"\x7d" =
      44 :: (js "\"emotion\"" ++ 58 :: (js "\"Neutral\"" ++ [125])) := by decide
  simp [jsonStringifyBody, jsonMember, jsonQuote_clean t hwt ht, jsonQuote_clean s hws hs, hk1,
    hk2, hk3, hk4, e1, e2, e3, List.intercalate]

/-- The two forms of the body drop to the same text once white space between tokens is gone. -/
theorem dropInsignificant_body (opening : JsString) (t s : JsString) (ht : Clean t)
    (hs : Clean s)
    (hopen : ∀ rest, dropInsignificant Scan.outside (opening ++ rest) =
      js "\x7b\"text\":\"" ++ dropInsignificant Scan.inside rest) :
    dropInsignificant Scan.outside (opening ++ (t ++ 34 :: (js ",\"speaker\":\"" ++
        (s ++ 34 :: js ",\"emotion\":\"Neutral\"\x7d")))) =
      js "\x7b\"text\":\"" ++ (t ++ 34 :: (js ",\"speaker\":\"" ++
        (s ++ 34 :: js ",\"emotion\":\"Neutral\"\x7d"))) := by
  rw [hopen, dropInsignificant_literal _ _ ht, dropInsignificant_speaker_open,
    dropInsignificant_literal _ _ hs, dropInsignificant_emotion]

/-- A text that is one lone surrogate has no double quote, backslash or control character, yet
the template copies it raw where `JSON.stringify` writes the escape `\ud83d`: the two bodies
differ by more than white space, against the second half of C10 as stated. -/
theorem lone_surrogate_body_differs :
    Clean loneSurrogateText ∧ Clean (js "s1") ∧
    ttsBody (some loneSurrogateText) (some (js "s1")) =
      js "\x7b\"text\": \"" ++ [55357] ++ js "\",\"speaker\":\"s1\",\"emotion\":\"Neutral\"\x7d" ∧
    jsonStringifyBody (some loneSurrogateText) (some (js "s1")) =
      js "\x7b\"text\":\"\\ud83d\",\"speaker\":\"s1\",\"emotion\":\"Neutral\"\x7d" ∧
    ¬ EqualUpToWs (ttsBody (some loneSurrogateText) (some (js "s1")))
      (jsonStringifyBody (some loneSurrogateText) (some (js "s1"))) := by
  refine ⟨?_, ?_, by decide, by decide, ?_⟩
  · unfold Clean; decide
  · unfold Clean; decide
  · unfold EqualUpToWs; decide

/-- C10 (amended): `POST /tts` of `test.js` sends the template body built from the raw fields.
For a text with a double quote the body is not the structured serialisation of
`\x7b text, speaker, emotion: "Neutral" \x7d`, not even up to white space: for `say "hi"` it is
not valid JSON (no parse of it succeeds, whatever the fuel), and for a text that closes the
literal it decodes to an object with another `text` and an injected member.  For every text and
speaker without lone surrogate, double quote, backslash and control character the body equals
the structured serialisation up to white space. -/
theorem template_body_vs_structured_serialisation :
    (∀ (w : TopWorld) (body : SpeakerMsg), ∃ rest : Trace,
      onTopTts w (some body) =
        Effect.fetchCall "https://api.topmediai.com/v1/text2speech" "POST"
          [("x-api-key", w.apiKey), ("Content-Type", "application/json")]
          (some (ttsBody body.text body.speaker)) :: rest) ∧
    (¬ EqualUpToWs (ttsBody (some quoteText) (some (js "s1")))
        (jsonStringifyBody (some quoteText) (some (js "s1"))) ∧
      parseJson (wireText (ttsBody (some quoteText) (some (js "s1")))) = none ∧
      (∀ fuel : Nat,
        parseValue fuel (wireText (ttsBody (some quoteText) (some (js "s1")))) = none) ∧
      parseJson (wireText (jsonStringifyBody (some quoteText) (some (js "s1")))) =
        some (Json.obj [("text".toList, Json.str "say \"hi\"".toList),
          ("speaker".toList, Json.str "s1".toList),
          ("emotion".toList, Json.str "Neutral".toList)])) ∧
    (¬ EqualUpToWs (ttsBody (some injectingText) (some (js "s1")))
        (jsonStringifyBody (some injectingText) (some (js "s1"))) ∧
      parseJson (wireText (ttsBody (some injectingText) (some (js "s1")))) =
        some (Json.obj [("text".toList, Json.str "a".toList),
          ("admin".toList, Json.str "true".toList),
          ("speaker".toList, Json.str "s1".toList),
          ("emotion".toList, Json.str "Neutral".toList)])) ∧
    (∀ text speaker : JsString, wellFormed text = true → wellFormed speaker = true →
      Clean text → Clean speaker →
      EqualUpToWs (ttsBody (some text) (some speaker))
        (jsonStringifyBody (some text) (some speaker)) ∧
      dropInsignificant Scan.outside (ttsBody (some text) (some speaker)) =
        jsonStringifyBody (some text) (some speaker)) := by
  refine ⟨fun w body => topTts_starts_with_fetch w body,
    ⟨?_, by rfl, fun fuel => by rcases fuel with _ | _ | fuel <;> rfl, by rfl⟩, ⟨?_, by rfl⟩,
    fun text speaker hwt hws ht hs => ?_⟩
  · unfold EqualUpToWs
    decide
  · unfold EqualUpToWs
    decide
  · have h1 : dropInsignificant Scan.outside (ttsBody (some text) (some speaker)) =
        jsonStringifyBody (some text) (some speaker) := by
      rw [ttsBody_pieces, jsonStringifyBody_clean text speaker hwt hws ht hs]
      exact dropInsignificant_body _ text speaker ht hs dropInsignificant_text_open
    have h2 : dropInsignificant Scan.outside (jsonStringifyBody (some text) (some speaker)) =
        jsonStringifyBody (some text) (some speaker) := by
      rw [jsonStringifyBody_clean text speaker hwt hws ht hs]
      exact dropInsignificant_body _ text speaker ht hs dropInsignificant_text_tight
    exact ⟨by unfold EqualUpToWs; rw [h1, h2], h1⟩

/-- The text `hello there` with speaker `s1`: the template body and the structured
serialisation differ by one space after the first colon. -/
theorem template_body_vs_structured_serialisation_witness :
    EqualUpToWs (ttsBody (some (js "hello there")) (some (js "s1")))
      (jsonStringifyBody (some (js "hello there")) (some (js "s1"))) ∧
    dropInsignificant Scan.outside (ttsBody (some (js "hello there")) (some (js "s1"))) =
      jsonStringifyBody (some (js "hello there")) (some (js "s1")) :=
  template_body_vs_structured_serialisation.2.2.2 (js "hello there") (js "s1")
    (by decide) (by decide) (by unfold Clean; decide) (by unfold Clean; decide)

end TTS
